import Mathlib

/-!
Verification of the lazorkit smart-wallet authorization engine
(programs/lazorkit) against its natural-language specification.

The development is a shallow embedding of the wired instruction handlers
(`execute_txn_direct`, `change_rule_direct`, `call_rule_direct`,
`commit_cpi`, `execute_committed`) and of the shared authorization
utilities (`utils.rs`, `security.rs`, `state/message.rs`).

Modelling conventions:
* bytes are `Nat` values (< 256 wherever the source produces them) and byte
  strings are `List Nat`; an account address (`Pubkey`) is its 32 raw bytes;
* `u64` / `u16` are `Nat` with explicit bounds, `i64` is `Int` with explicit
  saturating arithmetic where the source uses it;
* SHA-256 is implemented in full (the incremental `solana_program::hash::Hasher`
  equals SHA-256 of the concatenation of the hashed chunks, so account-meta
  hashing is modelled as one SHA-256 over an explicit byte stream);
* fallible code returns `Except Err α`; on-chain writes and CPIs are returned
  as an explicit effect list (a handler that returns an error performs no
  effect, matching the runtime's transaction rollback);
* the WebAuthn envelope parsing of `verify_authorization`
  (UTF-8 / `serde_json` / base64-url, all external crates) is abstracted as an
  environment function `decodeChallenge` that produces the challenge bytes
  from `client_data_json_raw`; everything downstream of it is modelled
  concretely. PDA seed derivation (`find_program_address`, an external
  ed25519-based runtime primitive) is likewise elided: it does not influence
  any of the control flow modelled here.
-/

namespace LazorKit

/-! ## SHA-256 over byte lists -/

namespace Sha256

def w32 (n : Nat) : Nat := n % 4294967296

def rotr (k x : Nat) : Nat := w32 ((x >>> k) ||| (x <<< (32 - k)))

def bigSigma0 (x : Nat) : Nat := (rotr 2 x) ^^^ (rotr 13 x) ^^^ (rotr 22 x)

def bigSigma1 (x : Nat) : Nat := (rotr 6 x) ^^^ (rotr 11 x) ^^^ (rotr 25 x)

def smallSigma0 (x : Nat) : Nat := (rotr 7 x) ^^^ (rotr 18 x) ^^^ (x >>> 3)

def smallSigma1 (x : Nat) : Nat := (rotr 17 x) ^^^ (rotr 19 x) ^^^ (x >>> 10)

def ch (x y z : Nat) : Nat := (x &&& y) ^^^ ((x ^^^ 4294967295) &&& z)

def maj (x y z : Nat) : Nat := (x &&& y) ^^^ (x &&& z) ^^^ (y &&& z)

def K : List Nat :=
  [1116352408, 1899447441, 3049323471, 3921009573, 961987163, 1508970993,
   2453635748, 2870763221, 3624381080, 310598401, 607225278, 1426881987,
   1925078388, 2162078206, 2614888103, 3248222580, 3835390401, 4022224774,
   264347078, 604807628, 770255983, 1249150122, 1555081692, 1996064986,
   2554220882, 2821834349, 2952996808, 3210313671, 3336571891, 3584528711,
   113926993, 338241895, 666307205, 773529912, 1294757372, 1396182291,
   1695183700, 1986661051, 2177026350, 2456956037, 2730485921, 2820302411,
   3259730800, 3345764771, 3516065817, 3600352804, 4094571909, 275423344,
   430227734, 506948616, 659060556, 883997877, 958139571, 1322822218,
   1537002063, 1747873779, 1955562222, 2024104815, 2227730452, 2361852424,
   2428436474, 2756734187, 3204031479, 3329325298]

def H0 : List Nat :=
  [1779033703, 3144134277, 1013904242, 2773480762,
   1359893119, 2600822924, 528734635, 1541459225]

/-- Big-endian byte encoding of `v` into `n` bytes. -/
def beBytes (n v : Nat) : List Nat :=
  (List.range n).map (fun i => (v >>> (8 * (n - 1 - i))) % 256)

/-- Big-endian 32-bit word from the first four bytes of `l`. -/
def beWord (l : List Nat) : Nat :=
  (l.getD 0 0) <<< 24 ||| (l.getD 1 0) <<< 16 ||| (l.getD 2 0) <<< 8 ||| l.getD 3 0

def padMessage (msg : List Nat) : List Nat :=
  let len := msg.length
  msg ++ [128] ++ List.replicate ((119 - len % 64) % 64) 0 ++ beBytes 8 (len * 8)

def toBlocksAux : Nat → List Nat → List (List Nat)
  | 0, _ => []
  | _, [] => []
  | fuel + 1, l => l.take 64 :: toBlocksAux fuel (l.drop 64)

def toBlocks (l : List Nat) : List (List Nat) := toBlocksAux l.length l

def scheduleAux : Nat → List Nat → List Nat
  | 0, w => w
  | k + 1, w =>
    let v := w32 (smallSigma1 (w.getD 1 0) + w.getD 6 0 +
                  smallSigma0 (w.getD 14 0) + w.getD 15 0)
    scheduleAux k (v :: w)

/-- The 64-word message schedule; built newest-first internally, returned in order. -/
def schedule (w16 : List Nat) : List Nat := (scheduleAux 48 w16.reverse).reverse

structure St where
  a : Nat
  b : Nat
  c : Nat
  d : Nat
  e : Nat
  f : Nat
  g : Nat
  h : Nat

def round (st : St) (ki wi : Nat) : St :=
  let t1 := w32 (st.h + bigSigma1 st.e + ch st.e st.f st.g + ki + wi)
  let t2 := w32 (bigSigma0 st.a + maj st.a st.b st.c)
  ⟨w32 (t1 + t2), st.a, st.b, st.c, w32 (st.d + t1), st.e, st.f, st.g⟩

def compressBlock (hs : List Nat) (block : List Nat) : List Nat :=
  let w16 := (List.range 16).map (fun i => beWord (block.drop (4 * i)))
  let w := schedule w16
  let st0 : St := ⟨hs.getD 0 0, hs.getD 1 0, hs.getD 2 0, hs.getD 3 0,
                   hs.getD 4 0, hs.getD 5 0, hs.getD 6 0, hs.getD 7 0⟩
  let stF := (List.zip K w).foldl (fun st kw => round st kw.1 kw.2) st0
  [w32 (hs.getD 0 0 + stF.a), w32 (hs.getD 1 0 + stF.b), w32 (hs.getD 2 0 + stF.c),
   w32 (hs.getD 3 0 + stF.d), w32 (hs.getD 4 0 + stF.e), w32 (hs.getD 5 0 + stF.f),
   w32 (hs.getD 6 0 + stF.g), w32 (hs.getD 7 0 + stF.h)]

/-- SHA-256 digest (32 bytes) of a byte string, as used by
`anchor_lang::solana_program::hash::hash` and (incrementally) `Hasher`. -/
def sha256 (msg : List Nat) : List Nat :=
  ((toBlocks (padMessage msg)).foldl compressBlock H0).foldr
    (fun w acc => beBytes 4 w ++ acc) []

end Sha256

/-! ## Base types and constants -/

/-- Byte strings. -/
abbrev Bytes := List Nat

/-- A 32-byte account address, kept as its raw bytes. -/
abbrev Pubkey := List Nat

/-- `declare_id!("J6Big9w1VNeRZgDWH5qmNz2Nd6XFq5QeZbqC8caqSE5W")` (lib.rs). -/
def lazorkitID : Pubkey :=
  [253, 234, 179, 135, 26, 198, 199, 46, 175, 23, 74, 155, 87, 97, 146, 53,
   218, 85, 17, 32, 195, 254, 72, 91, 86, 100, 73, 104, 132, 63, 157, 161]

/-- `pubkey!("Secp256r1SigVerify1111111111111111111111111")` (constants.rs). -/
def secp256r1ID : Pubkey :=
  [6, 146, 13, 236, 47, 234, 113, 181, 183, 35, 129, 77, 116, 45, 169, 3,
   28, 131, 231, 95, 219, 121, 93, 86, 142, 117, 71, 128, 32, 0, 0, 0]

/-- The system program id (all zero bytes). -/
def systemProgramID : Pubkey := List.replicate 32 0

/-- Modelled from the spec: `SOL_TRANSFER_DISCRIMINATOR`, referenced by the
handlers but absent from the tree's `constants.rs`, is "the 4-byte
native-transfer discriminator" of the system program: the little-endian
encoding of the `Transfer` instruction index (2). -/
def SOL_TRANSFER_DISCRIMINATOR : Bytes := [2, 0, 0, 0]

def u64Max : Nat := 18446744073709551615

def u16Mod : Nat := 65536

def i64Min : Int := -9223372036854775808

def i64Max : Int := 9223372036854775807

/-- Rust `u64::checked_add`. -/
def checkedAddU64 (a b : Nat) : Option Nat :=
  if a + b ≤ u64Max then some (a + b) else none

/-- Rust `i64::saturating_add`. -/
def i64SatAdd (a b : Int) : Int :=
  if a + b < i64Min then i64Min else if a + b > i64Max then i64Max else a + b

/-- Rust `i64::saturating_sub`. -/
def i64SatSub (a b : Int) : Int :=
  if a - b < i64Min then i64Min else if a - b > i64Max then i64Max else a - b

/-- `u16::from_le_bytes` on the first two bytes of `l`. -/
def u16LE (l : Bytes) : Nat := l.getD 0 0 + 256 * l.getD 1 0

/-- Little-endian value of a whole byte string (`foldr` over base-256 digits). -/
def leNat (l : Bytes) : Nat := l.foldr (fun b acc => b + 256 * acc) 0

/-- Little-endian byte encoding of `v` into `k` bytes. -/
def leBytes : Nat → Nat → Bytes
  | 0, _ => []
  | k + 1, v => v % 256 :: leBytes k (v / 256)

/-- `format!("{}:{}", namespace, name)` then first 8 bytes of SHA-256 (utils.rs
`sighash`); 58 is the ASCII colon. -/
def sighash (ns nm : Bytes) : Bytes := (Sha256.sha256 (ns ++ [58] ++ nm)).take 8

/-- ASCII `global`. -/
def globalNs : Bytes := [103, 108, 111, 98, 97, 108]

/-- ASCII `check_rule`. -/
def checkRuleName : Bytes := [99, 104, 101, 99, 107, 95, 114, 117, 108, 101]

/-- ASCII `destroy`. -/
def destroyName : Bytes := [100, 101, 115, 116, 114, 111, 121]

/-- ASCII `init_rule`. -/
def initRuleName : Bytes := [105, 110, 105, 116, 95, 114, 117, 108, 101]

/-! ## Errors

Variant names follow the `LazorKitError` variants referenced by the wired
handlers (the enum declaration in the tree's `error.rs` is an older draft);
`IllegalOwner` is `ProgramError::IllegalOwner`, `SysvarLoadFailed` stands for
the error propagated by `load_instruction_at_checked`, and `CpiFailed` for an
error returned by an invoked program. -/

inductive Err where
  | InvalidPasskeyFormat
  | InvalidSignature
  | InvalidInstructionData
  | ProgramPaused
  | TooManyRemainingAccounts
  | RuleDataTooLarge
  | CpiDataTooLarge
  | CpiDataMissing
  | PasskeyMismatch
  | SmartWalletMismatch
  | SysvarLoadFailed
  | Secp256r1InvalidLength
  | Secp256r1HeaderMismatch
  | Secp256r1DataMismatch
  | ClientDataInvalidUtf8
  | ClientDataJsonParseError
  | ChallengeMissing
  | ChallengeBase64DecodeError
  | ChallengeDeserializationError
  | TimestampTooOld
  | TimestampTooNew
  | NonceMismatch
  | NonceOverflow
  | ProgramNotExecutable
  | PolicyProgramNotRegistered
  | InvalidProgramAddress
  | RuleProgramsIdentical
  | NoDefaultRuleProgram
  | InvalidAccountData
  | InvalidCheckRuleDiscriminator
  | InvalidDestroyDiscriminator
  | InvalidInitRuleDiscriminator
  | AccountSliceOutOfBounds
  | InsufficientRuleAccounts
  | SolTransferInsufficientAccounts
  | InvalidCpiData
  | TransferAmountOverflow
  | IntegerOverflow
  | InsufficientLamports
  | InsufficientCpiAccounts
  | ReentrancyDetected
  | InvalidRemainingAccounts
  | AccountAlreadyInitialized
  | IllegalOwner
  | CpiFailed
  deriving DecidableEq, Repr

/-! ## Accounts, instructions, state -/

/-- The slice of `solana_program::account_info::AccountInfo` observed by the
modelled handlers. -/
structure AccountInfo where
  key : Pubkey
  lamports : Nat
  owner : Pubkey
  executable : Bool
  is_signer : Bool
  is_writable : Bool
  dataEmpty : Bool
  deriving DecidableEq, Repr

def dummyAccountInfo : AccountInfo :=
  ⟨[], 0, [], false, false, false, true⟩

structure AccountMeta where
  pubkey : Pubkey
  is_signer : Bool
  is_writable : Bool
  deriving DecidableEq, Repr

structure Instruction where
  program_id : Pubkey
  accounts : List AccountMeta
  data : Bytes
  deriving DecidableEq, Repr

/-- `state::Config` (config.rs; the wired handlers read the default program
under the `default_rule_program` name). -/
structure Config where
  authority : Pubkey
  create_smart_wallet_fee : Nat
  execute_fee : Nat
  default_rule_program : Pubkey
  is_paused : Bool
  deriving DecidableEq, Repr

/-- Modelled from the spec: `state/smart_wallet_config.rs` is absent from the
tree; the fields follow §3 `SmartWalletData` of the spec
(`wallet_id`, policy/rule program pointer, `last_nonce`, `bump`) and the
wired handlers' use sites (`id`, `rule_program`, `last_nonce`, `bump`). -/
structure SmartWalletConfig where
  id : Nat
  rule_program : Pubkey
  last_nonce : Nat
  bump : Nat
  deriving DecidableEq, Repr

/-- `state::SmartWalletAuthenticator`. -/
structure SmartWalletAuthenticator where
  passkey_pubkey : Bytes
  smart_wallet : Pubkey
  credential_id : Bytes
  bump : Nat
  deriving DecidableEq, Repr

/-- `state::CpiCommit`. -/
structure CpiCommit where
  owner_wallet : Pubkey
  target_program : Pubkey
  data_hash : Bytes
  accounts_hash : Bytes
  authorized_nonce : Nat
  expires_at : Int
  rent_refund_to : Pubkey
  deriving DecidableEq, Repr

/-! ## Challenge messages and their Borsh codec (state/message.rs) -/

structure ExecuteMessage where
  nonce : Nat
  current_timestamp : Int
  rule_data_hash : Bytes
  rule_accounts_hash : Bytes
  cpi_data_hash : Bytes
  cpi_accounts_hash : Bytes
  deriving DecidableEq, Repr

structure CallRuleMessage where
  nonce : Nat
  current_timestamp : Int
  rule_data_hash : Bytes
  rule_accounts_hash : Bytes
  new_passkey : Option Bytes
  deriving DecidableEq, Repr

structure ChangeRuleMessage where
  nonce : Nat
  current_timestamp : Int
  old_rule_data_hash : Bytes
  old_rule_accounts_hash : Bytes
  new_rule_data_hash : Bytes
  new_rule_accounts_hash : Bytes
  deriving DecidableEq, Repr

/-- Borsh reader: take exactly `n` bytes, return the rest. -/
def readBytesN (n : Nat) (l : Bytes) : Option (Bytes × Bytes) :=
  if n ≤ l.length then some (l.take n, l.drop n) else none

/-- Borsh `u64` (8 bytes little-endian). -/
def readU64 (l : Bytes) : Option (Nat × Bytes) :=
  (readBytesN 8 l).map (fun p => (leNat p.1, p.2))

/-- Interpret a `Nat` below `2^64` as a two's-complement `i64`. -/
def i64OfNat (v : Nat) : Int :=
  if v < 9223372036854775808 then (v : Int) else (v : Int) - 18446744073709551616

/-- Borsh `i64` (8 bytes little-endian, two's complement). -/
def readI64 (l : Bytes) : Option (Int × Bytes) :=
  (readBytesN 8 l).map (fun p => (i64OfNat (leNat p.1), p.2))

/-- Borsh `Option<[u8; 33]>`: tag byte `0` or `1`, then the payload. -/
def readOptionPasskey (l : Bytes) : Option (Option Bytes × Bytes) :=
  match l with
  | 0 :: rest => some (none, rest)
  | 1 :: rest => (readBytesN 33 rest).map (fun p => (some p.1, p.2))
  | _ => none

/-- Sequencing of Borsh readers. -/
def readThen {α β : Type} (x : Option (α × Bytes)) (f : α → Bytes → Option β) : Option β :=
  match x with
  | none => none
  | some (v, rest) => f v rest

/-- Borsh (`AnchorDeserialize::deserialize`) for `ExecuteMessage`. The reader
consumes a prefix of the input and returns the remaining bytes: Borsh's
`deserialize(&mut &bytes[..])` does not require the input to be exhausted. -/
def deserializeExecuteMessage (l : Bytes) : Option (ExecuteMessage × Bytes) :=
  readThen (readU64 l) fun n l =>
  readThen (readI64 l) fun t l =>
  readThen (readBytesN 32 l) fun h1 l =>
  readThen (readBytesN 32 l) fun h2 l =>
  readThen (readBytesN 32 l) fun h3 l =>
  readThen (readBytesN 32 l) fun h4 l =>
  some (⟨n, t, h1, h2, h3, h4⟩, l)

/-- Borsh for `CallRuleMessage`. -/
def deserializeCallRuleMessage (l : Bytes) : Option (CallRuleMessage × Bytes) :=
  readThen (readU64 l) fun n l =>
  readThen (readI64 l) fun t l =>
  readThen (readBytesN 32 l) fun h1 l =>
  readThen (readBytesN 32 l) fun h2 l =>
  readThen (readOptionPasskey l) fun pk l =>
  some (⟨n, t, h1, h2, pk⟩, l)

/-- Borsh for `ChangeRuleMessage`. -/
def deserializeChangeRuleMessage (l : Bytes) : Option (ChangeRuleMessage × Bytes) :=
  readThen (readU64 l) fun n l =>
  readThen (readI64 l) fun t l =>
  readThen (readBytesN 32 l) fun h1 l =>
  readThen (readBytesN 32 l) fun h2 l =>
  readThen (readBytesN 32 l) fun h3 l =>
  readThen (readBytesN 32 l) fun h4 l =>
  some (⟨n, t, h1, h2, h3, h4⟩, l)

/-- Borsh serializer for `u64`. -/
def u64LEBytes (n : Nat) : Bytes := leBytes 8 n

/-- Borsh serializer for `i64` (two's complement of the euclidean remainder). -/
def i64LEBytes (t : Int) : Bytes := leBytes 8 (t % 18446744073709551616).toNat

/-- Borsh (`AnchorSerialize`) for `ExecuteMessage`. -/
def serializeExecuteMessage (m : ExecuteMessage) : Bytes :=
  u64LEBytes m.nonce ++ i64LEBytes m.current_timestamp ++ m.rule_data_hash ++
    m.rule_accounts_hash ++ m.cpi_data_hash ++ m.cpi_accounts_hash

/-- Borsh for `Option<[u8; 33]>`. -/
def serializeOptionPasskey : Option Bytes → Bytes
  | none => [0]
  | some pk => 1 :: pk

/-- Borsh for `CallRuleMessage`. -/
def serializeCallRuleMessage (m : CallRuleMessage) : Bytes :=
  u64LEBytes m.nonce ++ i64LEBytes m.current_timestamp ++ m.rule_data_hash ++
    m.rule_accounts_hash ++ serializeOptionPasskey m.new_passkey

/-- Borsh for `ChangeRuleMessage`. -/
def serializeChangeRuleMessage (m : ChangeRuleMessage) : Bytes :=
  u64LEBytes m.nonce ++ i64LEBytes m.current_timestamp ++ m.old_rule_data_hash ++
    m.old_rule_accounts_hash ++ m.new_rule_data_hash ++ m.new_rule_accounts_hash

/-- `MAX_TIMESTAMP_DRIFT_SECONDS` (state/message.rs). -/
def MAX_TIMESTAMP_DRIFT_SECONDS : Int := 30

/-- The timestamp-window and nonce checks shared by every
`impl_message_verify!` instance (state/message.rs, lines 45-55), applied to
the deserialized header. -/
def verifyHeader (nonce : Nat) (ts now : Int) (last_nonce : Nat) : Except Err Unit :=
  if ts < i64SatSub now MAX_TIMESTAMP_DRIFT_SECONDS then .error .TimestampTooOld
  else if ts > i64SatAdd now MAX_TIMESTAMP_DRIFT_SECONDS then .error .TimestampTooNew
  else if nonce = last_nonce then .ok () else .error .NonceMismatch

/-- `<ExecuteMessage as Message>::verify`. -/
def executeMessageVerify (challengeBytes : Bytes) (now : Int) (lastNonce : Nat) :
    Except Err Unit :=
  match deserializeExecuteMessage challengeBytes with
  | none => .error .ChallengeDeserializationError
  | some (hdr, _) => verifyHeader hdr.nonce hdr.current_timestamp now lastNonce

/-- `<CallRuleMessage as Message>::verify`. -/
def callRuleMessageVerify (challengeBytes : Bytes) (now : Int) (lastNonce : Nat) :
    Except Err Unit :=
  match deserializeCallRuleMessage challengeBytes with
  | none => .error .ChallengeDeserializationError
  | some (hdr, _) => verifyHeader hdr.nonce hdr.current_timestamp now lastNonce

/-- `<ChangeRuleMessage as Message>::verify`. -/
def changeRuleMessageVerify (challengeBytes : Bytes) (now : Int) (lastNonce : Nat) :
    Except Err Unit :=
  match deserializeChangeRuleMessage challengeBytes with
  | none => .error .ChallengeDeserializationError
  | some (hdr, _) => verifyHeader hdr.nonce hdr.current_timestamp now lastNonce

/-! ## Secp256r1 verification record checks (utils.rs, lines 94-170) -/

def SECP_DATA_START : Nat := 16

def SECP_PUBKEY_SIZE : Nat := 33

def SECP_SIGNATURE_SIZE : Nat := 64

def SECP_HEADER_TOTAL : Nat := 16

structure SecpOffsets where
  pubkey_offset : Nat
  sig_offset : Nat
  msg_offset : Nat
  msg_len : Nat
  deriving DecidableEq, Repr

/-- `calculate_secp_offsets`; `msg_len` is `message.len() as u16`, so the
caller passes the length reduced mod `2^16`. -/
def calculate_secp_offsets (msgLen : Nat) : SecpOffsets :=
  ⟨SECP_DATA_START, SECP_DATA_START + SECP_PUBKEY_SIZE,
   SECP_DATA_START + SECP_PUBKEY_SIZE + SECP_SIGNATURE_SIZE, msgLen⟩

/-- `verify_secp_header`: one signature, 0xFFFF instruction indexes, and the
three region offsets, all read little-endian from the 16-byte header. -/
def verify_secp_header (data : Bytes) (o : SecpOffsets) : Bool :=
  data.getD 0 0 == 1 &&
  u16LE (data.drop 2) == o.sig_offset &&
  u16LE (data.drop 4) == 65535 &&
  u16LE (data.drop 6) == o.pubkey_offset &&
  u16LE (data.drop 8) == 65535 &&
  u16LE (data.drop 10) == o.msg_offset &&
  u16LE (data.drop 12) == o.msg_len &&
  u16LE (data.drop 14) == 65535

/-- `data[a..b]`. -/
def sliceRange (data : Bytes) (a b : Nat) : Bytes := (data.drop a).take (b - a)

/-- `verify_secp_data`: the embedded pubkey, signature and message regions
must equal the expected byte strings. -/
def verify_secp_data (data pubkey sig msg : Bytes) : Bool :=
  sliceRange data SECP_HEADER_TOTAL (SECP_HEADER_TOTAL + SECP_PUBKEY_SIZE) == pubkey &&
  sliceRange data (SECP_HEADER_TOTAL + SECP_PUBKEY_SIZE)
    (SECP_HEADER_TOTAL + SECP_PUBKEY_SIZE + SECP_SIGNATURE_SIZE) == sig &&
  data.drop (SECP_HEADER_TOTAL + SECP_PUBKEY_SIZE + SECP_SIGNATURE_SIZE) == msg

/-- `verify_secp256r1_data`. -/
def verify_secp256r1_data (data pubkey msg sig : Bytes) : Except Err Unit :=
  let offsets := calculate_secp_offsets (msg.length % u16Mod)
  if ¬ verify_secp_header data offsets then .error .Secp256r1HeaderMismatch
  else if ¬ verify_secp_data data pubkey sig msg then .error .Secp256r1DataMismatch
  else .ok ()

/-- `verify_secp256r1_instruction` (utils.rs, lines 95-107). -/
def verify_secp256r1_instruction (ix : Instruction) (pubkey msg sig : Bytes) :
    Except Err Unit :=
  let expected_len := SECP_DATA_START + SECP_PUBKEY_SIZE + SECP_SIGNATURE_SIZE + msg.length
  if ix.program_id ≠ secp256r1ID ∨ ¬ ix.accounts.isEmpty ∨ ix.data.length ≠ expected_len then
    .error .Secp256r1InvalidLength
  else
    verify_secp256r1_data ix.data pubkey msg sig

/-! ## Validation helpers (security.rs) and utils -/

def MAX_RULE_DATA_SIZE : Nat := 1024

def MAX_CPI_DATA_SIZE : Nat := 1024

def MAX_REMAINING_ACCOUNTS : Nat := 32

/-- `validation::validate_rule_data`. -/
def validate_rule_data (ruleData : Bytes) : Except Err Unit :=
  if ruleData.length ≤ MAX_RULE_DATA_SIZE then .ok () else .error .RuleDataTooLarge

/-- `validation::validate_cpi_data`. -/
def validate_cpi_data (cpiData : Bytes) : Except Err Unit :=
  if ¬ cpiData.length ≤ MAX_CPI_DATA_SIZE then .error .CpiDataTooLarge
  else if cpiData.isEmpty then .error .CpiDataMissing
  else .ok ()

/-- `validation::validate_remaining_accounts`. -/
def validate_remaining_accounts (accounts : List AccountInfo) : Except Err Unit :=
  if accounts.length ≤ MAX_REMAINING_ACCOUNTS then .ok ()
  else .error .TooManyRemainingAccounts

/-- `validation::validate_lamport_amount` (security.rs, lines 79-86): the
only check is `amount <= u64::MAX / 2`. -/
def validate_lamport_amount (amount : Nat) : Except Err Unit :=
  if amount ≤ u64Max / 2 then .ok () else .error .TransferAmountOverflow

/-- `validation::validate_program_executable`. -/
def validate_program_executable (program : AccountInfo) : Except Err Unit :=
  if program.executable then .ok () else .error .ProgramNotExecutable

/-- `check_whitelist` (utils.rs): membership in the registry account's list. -/
def check_whitelist (registry : List Pubkey) (program : Pubkey) : Except Err Unit :=
  if program ∈ registry then .ok () else .error .PolicyProgramNotRegistered

/-- `split_remaining_accounts` (utils.rs). -/
def split_remaining_accounts (accounts : List AccountInfo) (splitIndex : Nat) :
    Except Err (List AccountInfo × List AccountInfo) :=
  if splitIndex ≤ accounts.length then .ok (accounts.take splitIndex, accounts.drop splitIndex)
  else .error .AccountSliceOutOfBounds

/-! ## Effects and environment -/

/-- Observable on-chain actions a handler performs besides rewriting its own
state account. A run that returns an error performs none (transaction
rollback). -/
inductive Effect where
  | cpi (program : Pubkey) (data : Bytes) (accounts : List AccountInfo)
  | transfer (source target : Pubkey) (amount : Nat)
  | createAuthenticator (account wallet : Pubkey) (passkey credential : Bytes)
  | closeAccount (account refundTo : Pubkey)
  deriving DecidableEq, Repr

/-- Ambient runtime facts: the clock, rent sysvar, the instructions sysvar,
the WebAuthn envelope decoding (UTF-8 + `serde_json` + base64-url, external
crates, abstracted as a function producing the challenge bytes), and the
outcome of invoking an external program. -/
structure Env where
  now : Int
  rentExemptMin : Nat
  instructions : List Instruction
  decodeChallenge : Bytes → Except Err Bytes
  cpiOk : Pubkey → Bytes → Bool

/-- `transfer_sol_from_pda` (utils.rs, lines 188-206). A zero amount is a
successful no-op. -/
def transfer_sol_from_pda (source target : AccountInfo) (amount : Nat) :
    Except Err (List Effect) :=
  if amount = 0 then .ok []
  else if source.owner ≠ lazorkitID then .error .IllegalOwner
  else if source.lamports < amount then .error .InsufficientLamports
  else .ok [.transfer source.key target.key amount]

/-- `execute_cpi` (utils.rs): records the invocation; the invoked program's
outcome is supplied by the environment. The PDA-signer seed derivation has no
bearing on control flow and is elided. -/
def execute_cpi (env : Env) (accounts : List AccountInfo) (data : Bytes)
    (program : AccountInfo) : Except Err (List Effect) :=
  if env.cpiOk program.key data then .ok [.cpi program.key data accounts]
  else .error .CpiFailed

/-- Rust `?` on `Result`: propagate the error, continue with the value. -/
def andThen {α β : Type} (x : Except Err α) (f : α → Except Err β) : Except Err β :=
  match x with
  | .error e => .error e
  | .ok v => f v

/-- Rust `Option::ok_or`. -/
def okOr {α : Type} (x : Option α) (e : Err) : Except Err α :=
  match x with
  | none => .error e
  | some v => .ok v

/-- `verify_authorization` (utils.rs, lines 253-308), generic over the
challenge type exactly as the Rust function is generic over
`M: Message + AnchorDeserialize`: `parse` is `M`'s Borsh reader and `mVerify`
is `<M as Message>::verify`. The reconstructed signed message is
`authenticator_data ‖ SHA-256(client_data_json)`. -/
def verify_authorization {M : Type} (parse : Bytes → Option (M × Bytes))
    (mVerify : Bytes → Int → Nat → Except Err Unit) (env : Env)
    (device : SmartWalletAuthenticator) (smartWalletKey : Pubkey)
    (passkeyPubkey signature clientDataJsonRaw authenticatorDataRaw : Bytes)
    (verifyInstructionIndex lastNonce : Nat) : Except Err M :=
  if device.passkey_pubkey ≠ passkeyPubkey then .error .PasskeyMismatch
  else if device.smart_wallet ≠ smartWalletKey then .error .SmartWalletMismatch
  else
  andThen (okOr (env.instructions.get? verifyInstructionIndex) .SysvarLoadFailed)
    fun secpIx =>
  andThen (env.decodeChallenge clientDataJsonRaw) fun challengeBytes =>
  andThen (verify_secp256r1_instruction secpIx device.passkey_pubkey
      (authenticatorDataRaw ++ Sha256.sha256 clientDataJsonRaw) signature) fun _ =>
  andThen (mVerify challengeBytes env.now lastNonce) fun _ =>
  andThen (okOr (parse challengeBytes) .ChallengeDeserializationError) fun m =>
  .ok m.1

/-! ## Account-meta hash streams

`solana_program::hash::Hasher` is incremental SHA-256: hashing a sequence of
chunks equals one SHA-256 over their concatenation, so each handler's
accounts hash is modelled as `sha256` of an explicit byte stream. The three
wired/drafted encodings differ and are kept separate. -/

/-- Per-account bytes `pubkey ‖ is_writable ‖ is_signer` as fed to the hasher
by `execute_txn_direct` (step 4.2 and 6) and `commit_cpi`
(`rh.hash(&[a.is_writable as u8, a.is_signer as u8])`). -/
def accountMetaBytesWS (a : AccountInfo) : Bytes :=
  a.key ++ [if a.is_writable then 1 else 0, if a.is_signer then 1 else 0]

/-- Per-account bytes `pubkey ‖ is_signer` only, as fed to the hasher by
`change_rule_direct` (lines 63-84), `call_rule_direct` and
`execute_committed` (`h.hash(&[a.is_signer as u8])`, no `is_writable`). -/
def accountMetaBytesS (a : AccountInfo) : Bytes :=
  a.key ++ [if a.is_signer then 1 else 0]

/-- Per-account bytes `pubkey ‖ is_signer ‖ is_writable` as fed to the hasher
by the `instructions/execute/execute_transaction.rs` (lines 87-98, 122-128)
and `update_policy.rs` drafts, which hash both flags but signer first. -/
def accountMetaBytesSW (a : AccountInfo) : Bytes :=
  a.key ++ [if a.is_signer then 1 else 0, if a.is_writable then 1 else 0]

def accountsStreamWS (program : Pubkey) (accs : List AccountInfo) : Bytes :=
  program ++ (accs.map accountMetaBytesWS).flatten

def accountsStreamS (program : Pubkey) (accs : List AccountInfo) : Bytes :=
  program ++ (accs.map accountMetaBytesS).flatten

def accountsStreamSW (program : Pubkey) (accs : List AccountInfo) : Bytes :=
  program ++ (accs.map accountMetaBytesSW).flatten

/-! ## Instruction arguments (instructions/execute/args.rs) -/

structure ExecuteTxnArgs where
  passkey_pubkey : Bytes
  signature : Bytes
  client_data_json_raw : Bytes
  authenticator_data_raw : Bytes
  verify_instruction_index : Nat
  split_index : Nat
  rule_data : Bytes
  cpi_data : Bytes

/-- The optional new-device payload as used by `change_rule_direct` /
`call_rule_direct` (`args.new_authenticator.passkey_pubkey` /
`.credential_id`). -/
structure NewAuthenticatorArg where
  passkey_pubkey : Bytes
  credential_id : Bytes

structure ChangeRuleArgs where
  passkey_pubkey : Bytes
  signature : Bytes
  client_data_json_raw : Bytes
  authenticator_data_raw : Bytes
  verify_instruction_index : Nat
  split_index : Nat
  destroy_rule_data : Bytes
  init_rule_data : Bytes
  new_authenticator : Option NewAuthenticatorArg

structure CallRuleArgs where
  passkey_pubkey : Bytes
  signature : Bytes
  client_data_json_raw : Bytes
  authenticator_data_raw : Bytes
  verify_instruction_index : Nat
  rule_data : Bytes
  new_authenticator : Option NewAuthenticatorArg

structure CommitArgs where
  passkey_pubkey : Bytes
  signature : Bytes
  client_data_json_raw : Bytes
  authenticator_data_raw : Bytes
  verify_instruction_index : Nat
  rule_data : Bytes
  expires_at : Int

/-- The checks of `impl_args_validate!` (args.rs, lines 59-92), shared by
`ExecuteTxnArgs`, `ChangeRuleArgs` and `CallRuleArgs`. -/
def argsValidateCommon (passkey sig cdj ad : Bytes) (idx : Nat) : Except Err Unit :=
  if ¬ (passkey.getD 0 0 = 2 ∨ passkey.getD 0 0 = 3) then .error .InvalidPasskeyFormat
  else if sig.length ≠ 64 then .error .InvalidSignature
  else if cdj.isEmpty then .error .InvalidInstructionData
  else if ad.isEmpty then .error .InvalidInstructionData
  else if ¬ idx < 255 then .error .InvalidInstructionData
  else .ok ()

/-- `<CommitArgs as Args>::validate` (args.rs, lines 94-121): the common
checks plus a non-empty `rule_data`. -/
def commitArgsValidate (args : CommitArgs) : Except Err Unit :=
  andThen (argsValidateCommon args.passkey_pubkey args.signature args.client_data_json_raw
      args.authenticator_data_raw args.verify_instruction_index) fun _ =>
  if args.rule_data.isEmpty then .error .InvalidInstructionData else .ok ()

/-! ## Handler account sets and results -/

structure ExecuteTxnAccounts where
  payer : AccountInfo
  smart_wallet : AccountInfo
  smart_wallet_config : SmartWalletConfig
  smart_wallet_authenticator : SmartWalletAuthenticator
  whitelist_rule_programs : List Pubkey
  authenticator_program : AccountInfo
  cpi_program : AccountInfo
  config : Config
  remaining_accounts : List AccountInfo

structure ChangeRuleAccounts where
  payer : AccountInfo
  config : Config
  smart_wallet : AccountInfo
  smart_wallet_config : SmartWalletConfig
  smart_wallet_authenticator : SmartWalletAuthenticator
  old_rule_program : AccountInfo
  new_rule_program : AccountInfo
  whitelist_rule_programs : List Pubkey
  remaining_accounts : List AccountInfo

structure CallRuleAccounts where
  payer : AccountInfo
  config : Config
  smart_wallet : AccountInfo
  smart_wallet_config : SmartWalletConfig
  smart_wallet_authenticator : SmartWalletAuthenticator
  rule_program : AccountInfo
  whitelist_rule_programs : List Pubkey
  remaining_accounts : List AccountInfo

structure CommitAccounts where
  payer : AccountInfo
  config : Config
  smart_wallet : AccountInfo
  smart_wallet_config : SmartWalletConfig
  smart_wallet_authenticator : SmartWalletAuthenticator
  whitelist_rule_programs : List Pubkey
  authenticator_program : AccountInfo
  cpi_program : Pubkey
  remaining_accounts : List AccountInfo

structure ExecuteCommittedAccounts where
  payer : AccountInfo
  config : Config
  smart_wallet : AccountInfo
  smart_wallet_config : SmartWalletConfig
  cpi_program : AccountInfo
  cpi_commit : CpiCommit
  cpi_commit_key : Pubkey
  remaining_accounts : List AccountInfo

/-- Result of a successful handler run: the recorded effects and the smart
wallet's rewritten state record. -/
structure HandlerOk where
  effects : List Effect
  smart_wallet_config : SmartWalletConfig
  deriving DecidableEq, Repr

/-- Result of a successful `commit_cpi` run. -/
structure CommitOk where
  effects : List Effect
  smart_wallet_config : SmartWalletConfig
  cpi_commit : CpiCommit
  deriving DecidableEq, Repr

/-- The trailing `last_nonce` bump (`checked_add(1).ok_or(NonceOverflow)`)
shared by the four passkey-authorized handlers and `execute_committed`. -/
def bumpNonce (cfg : SmartWalletConfig) : Except Err SmartWalletConfig :=
  andThen (okOr (checkedAddU64 cfg.last_nonce 1) .NonceOverflow) fun n =>
  .ok { cfg with last_nonce := n }

/-! ## `execute_txn_direct` (instructions/execute/execute_txn_direct.rs) -/

/-- The native SOL transfer branch and the general-CPI branch of
`execute_txn_direct` step 7 (lines 131-212); also used verbatim by
`execute_committed` (lines 59-143). -/
def nativeTransferOrCpi (env : Env) (smartWallet : AccountInfo)
    (cpiProgram : AccountInfo) (cpiAccounts : List AccountInfo) (cpiData : Bytes)
    (executeFee : Nat) : Except Err (List Effect) :=
  if 4 ≤ cpiData.length ∧ cpiData.take 4 = SOL_TRANSFER_DISCRIMINATOR ∧
      cpiProgram.key = systemProgramID then
    if cpiAccounts.length < 2 then .error .SolTransferInsufficientAccounts
    else if cpiData.length < 12 then .error .InvalidCpiData
    else
    andThen (validate_lamport_amount (leNat ((cpiData.drop 4).take 8))) fun _ =>
    if (cpiAccounts.getD 1 dummyAccountInfo).key = smartWallet.key then
      .error .InvalidAccountData
    else
    andThen (okOr (checkedAddU64 (leNat ((cpiData.drop 4).take 8)) executeFee)
        .IntegerOverflow) fun s =>
    andThen (okOr (checkedAddU64 s env.rentExemptMin) .IntegerOverflow) fun totalNeeded =>
    if smartWallet.lamports < totalNeeded then .error .InsufficientLamports
    else transfer_sol_from_pda smartWallet (cpiAccounts.getD 1 dummyAccountInfo)
      (leNat ((cpiData.drop 4).take 8))
  else
    andThen (validate_program_executable cpiProgram) fun _ =>
    if cpiProgram.key = lazorkitID then .error .ReentrancyDetected
    else if cpiAccounts.isEmpty then .error .InsufficientCpiAccounts
    else execute_cpi env cpiAccounts cpiData cpiProgram

/-- `require!(hash == expected, LazorKitError::InvalidAccountData)` on an
accounts-meta byte stream, as every handler states its accounts-hash check. -/
def accountsHashGuard (streamBytes expected : Bytes) : Except Err Unit :=
  if Sha256.sha256 streamBytes = expected then .ok () else .error .InvalidAccountData

/-- `require!(hash(data) == expected, LazorKitError::InvalidInstructionData)`:
the instruction-data half of the binding. -/
def dataHashGuard (data expected : Bytes) : Except Err Unit :=
  if Sha256.sha256 data = expected then .ok () else .error .InvalidInstructionData

def execute_txn_direct (env : Env) (ctx : ExecuteTxnAccounts) (args : ExecuteTxnArgs) :
    Except Err HandlerOk :=
  andThen (argsValidateCommon args.passkey_pubkey args.signature args.client_data_json_raw
      args.authenticator_data_raw args.verify_instruction_index) fun _ =>
  if ctx.config.is_paused then .error .ProgramPaused
  else
  andThen (validate_remaining_accounts ctx.remaining_accounts) fun _ =>
  andThen (verify_authorization deserializeExecuteMessage executeMessageVerify env
      ctx.smart_wallet_authenticator ctx.smart_wallet.key args.passkey_pubkey
      args.signature args.client_data_json_raw args.authenticator_data_raw
      args.verify_instruction_index ctx.smart_wallet_config.last_nonce) fun msg =>
  andThen (validate_program_executable ctx.authenticator_program) fun _ =>
  andThen (check_whitelist ctx.whitelist_rule_programs ctx.authenticator_program.key)
    fun _ =>
  if ctx.authenticator_program.key ≠ ctx.smart_wallet_config.rule_program then
    .error .InvalidProgramAddress
  else
  andThen (split_remaining_accounts ctx.remaining_accounts args.split_index) fun accs =>
  if accs.1.isEmpty then .error .InsufficientRuleAccounts
  else if ¬ (8 ≤ args.rule_data.length ∧
      args.rule_data.take 8 = sighash globalNs checkRuleName) then
    .error .InvalidCheckRuleDiscriminator
  else
  andThen (validate_rule_data args.rule_data) fun _ =>
  andThen (dataHashGuard args.rule_data msg.rule_data_hash) fun _ =>
  andThen (accountsHashGuard (accountsStreamWS ctx.authenticator_program.key accs.1)
      msg.rule_accounts_hash) fun _ =>
  andThen (execute_cpi env accs.1 args.rule_data ctx.authenticator_program)
    fun ruleEffects =>
  andThen (validate_cpi_data args.cpi_data) fun _ =>
  andThen (dataHashGuard args.cpi_data msg.cpi_data_hash) fun _ =>
  andThen (accountsHashGuard (accountsStreamWS ctx.cpi_program.key accs.2)
      msg.cpi_accounts_hash) fun _ =>
  andThen (nativeTransferOrCpi env ctx.smart_wallet ctx.cpi_program accs.2
      args.cpi_data ctx.config.execute_fee) fun mainEffects =>
  andThen (bumpNonce ctx.smart_wallet_config) fun cfg =>
  .ok ⟨ruleEffects ++ mainEffects, cfg⟩

/-! ## `change_rule_direct` (instructions/execute/change_rule_direct.rs) -/

/-- The optional new-authenticator branch shared by `change_rule_direct`
(lines 124-149) and `call_rule_direct` (lines 76-101): validate the passkey
prefix byte, take the first remaining account, require it uninitialized, and
initialize the `SmartWalletAuthenticator` record at it. -/
def newAuthenticatorStep (remaining : List AccountInfo) (wallet : Pubkey) :
    Option NewAuthenticatorArg → Except Err (List Effect)
  | none => .ok []
  | some na =>
    if ¬ (na.passkey_pubkey.getD 0 0 = 2 ∨ na.passkey_pubkey.getD 0 0 = 3) then
      .error .InvalidPasskeyFormat
    else
      match remaining.head? with
      | none => .error .InvalidRemainingAccounts
      | some newAuth =>
        if ¬ newAuth.dataEmpty then .error .AccountAlreadyInitialized
        else .ok [.createAuthenticator newAuth.key wallet na.passkey_pubkey na.credential_id]

/-- `require!(old == default || new == default, NoDefaultRuleProgram)`
(change_rule_direct.rs, lines 113-119; update_policy.rs, lines 120-126). -/
def defaultTransitionGuard (oldProg newProg dflt : Pubkey) : Except Err Unit :=
  if oldProg = dflt ∨ newProg = dflt then .ok () else .error .NoDefaultRuleProgram

def change_rule_direct (env : Env) (ctx : ChangeRuleAccounts) (args : ChangeRuleArgs) :
    Except Err HandlerOk :=
  andThen (argsValidateCommon args.passkey_pubkey args.signature args.client_data_json_raw
      args.authenticator_data_raw args.verify_instruction_index) fun _ =>
  if ctx.config.is_paused then .error .ProgramPaused
  else
  andThen (validate_remaining_accounts ctx.remaining_accounts) fun _ =>
  andThen (validate_program_executable ctx.old_rule_program) fun _ =>
  andThen (validate_program_executable ctx.new_rule_program) fun _ =>
  andThen (check_whitelist ctx.whitelist_rule_programs ctx.old_rule_program.key) fun _ =>
  andThen (check_whitelist ctx.whitelist_rule_programs ctx.new_rule_program.key) fun _ =>
  if ctx.smart_wallet_config.rule_program ≠ ctx.old_rule_program.key then
    .error .InvalidProgramAddress
  else if ctx.old_rule_program.key = ctx.new_rule_program.key then
    .error .RuleProgramsIdentical
  else
  andThen (validate_rule_data args.destroy_rule_data) fun _ =>
  andThen (validate_rule_data args.init_rule_data) fun _ =>
  andThen (verify_authorization deserializeChangeRuleMessage changeRuleMessageVerify env
      ctx.smart_wallet_authenticator ctx.smart_wallet.key args.passkey_pubkey
      args.signature args.client_data_json_raw args.authenticator_data_raw
      args.verify_instruction_index ctx.smart_wallet_config.last_nonce) fun msg =>
  if ¬ args.split_index ≤ ctx.remaining_accounts.length then .error .AccountSliceOutOfBounds
  else
  andThen (accountsHashGuard
      (accountsStreamS ctx.old_rule_program.key (ctx.remaining_accounts.take args.split_index))
      msg.old_rule_accounts_hash) fun _ =>
  andThen (accountsHashGuard
      (accountsStreamS ctx.new_rule_program.key (ctx.remaining_accounts.drop args.split_index))
      msg.new_rule_accounts_hash) fun _ =>
  if ¬ (8 ≤ args.destroy_rule_data.length ∧
      args.destroy_rule_data.take 8 = sighash globalNs destroyName) then
    .error .InvalidDestroyDiscriminator
  else if ¬ (8 ≤ args.init_rule_data.length ∧
      args.init_rule_data.take 8 = sighash globalNs initRuleName) then
    .error .InvalidInitRuleDiscriminator
  else
  andThen (dataHashGuard args.destroy_rule_data msg.old_rule_data_hash) fun _ =>
  andThen (dataHashGuard args.init_rule_data msg.new_rule_data_hash) fun _ =>
  andThen (defaultTransitionGuard ctx.old_rule_program.key ctx.new_rule_program.key
      ctx.config.default_rule_program) fun _ =>
  andThen (newAuthenticatorStep ctx.remaining_accounts ctx.smart_wallet.key
      args.new_authenticator) fun authEffects =>
  andThen (execute_cpi env (ctx.remaining_accounts.take args.split_index)
      args.destroy_rule_data ctx.old_rule_program) fun destroyEffects =>
  andThen (execute_cpi env (ctx.remaining_accounts.drop args.split_index)
      args.init_rule_data ctx.new_rule_program) fun initEffects =>
  andThen (bumpNonce
      { ctx.smart_wallet_config with rule_program := ctx.new_rule_program.key }) fun cfg =>
  .ok ⟨authEffects ++ destroyEffects ++ initEffects, cfg⟩

/-! ## `call_rule_direct` (instructions/execute/call_rule_direct.rs) -/

/-- The rule-accounts slice of `call_rule_direct`: the first remaining
account is reserved for the new authenticator when one is requested. -/
def callRuleAccs (remaining : List AccountInfo) (newAuth : Option NewAuthenticatorArg) :
    List AccountInfo :=
  remaining.drop (if newAuth.isSome then 1 else 0)

def call_rule_direct (env : Env) (ctx : CallRuleAccounts) (args : CallRuleArgs) :
    Except Err HandlerOk :=
  andThen (argsValidateCommon args.passkey_pubkey args.signature args.client_data_json_raw
      args.authenticator_data_raw args.verify_instruction_index) fun _ =>
  if ctx.config.is_paused then .error .ProgramPaused
  else
  andThen (validate_remaining_accounts ctx.remaining_accounts) fun _ =>
  andThen (validate_program_executable ctx.rule_program) fun _ =>
  if ctx.rule_program.key ≠ ctx.smart_wallet_config.rule_program then
    .error .InvalidProgramAddress
  else
  andThen (check_whitelist ctx.whitelist_rule_programs ctx.rule_program.key) fun _ =>
  andThen (validate_rule_data args.rule_data) fun _ =>
  andThen (verify_authorization deserializeCallRuleMessage callRuleMessageVerify env
      ctx.smart_wallet_authenticator ctx.smart_wallet.key args.passkey_pubkey
      args.signature args.client_data_json_raw args.authenticator_data_raw
      args.verify_instruction_index ctx.smart_wallet_config.last_nonce) fun msg =>
  andThen (dataHashGuard args.rule_data msg.rule_data_hash) fun _ =>
  andThen (accountsHashGuard
      (accountsStreamS ctx.rule_program.key
        (callRuleAccs ctx.remaining_accounts args.new_authenticator))
      msg.rule_accounts_hash) fun _ =>
  andThen (newAuthenticatorStep ctx.remaining_accounts ctx.smart_wallet.key
      args.new_authenticator) fun authEffects =>
  andThen (execute_cpi env (callRuleAccs ctx.remaining_accounts args.new_authenticator)
      args.rule_data ctx.rule_program) fun ruleEffects =>
  andThen (bumpNonce ctx.smart_wallet_config) fun cfg =>
  .ok ⟨authEffects ++ ruleEffects, cfg⟩

/-! ## `commit_cpi` (instructions/execute/chunk/commit_cpi.rs) -/

def commit_cpi (env : Env) (ctx : CommitAccounts) (args : CommitArgs) :
    Except Err CommitOk :=
  andThen (validate_remaining_accounts ctx.remaining_accounts) fun _ =>
  andThen (validate_rule_data args.rule_data) fun _ =>
  if ctx.config.is_paused then .error .ProgramPaused
  else
  andThen (verify_authorization deserializeExecuteMessage executeMessageVerify env
      ctx.smart_wallet_authenticator ctx.smart_wallet.key args.passkey_pubkey
      args.signature args.client_data_json_raw args.authenticator_data_raw
      args.verify_instruction_index ctx.smart_wallet_config.last_nonce) fun msg =>
  andThen (validate_program_executable ctx.authenticator_program) fun _ =>
  if ctx.authenticator_program.key ≠ ctx.smart_wallet_config.rule_program then
    .error .InvalidProgramAddress
  else
  andThen (check_whitelist ctx.whitelist_rule_programs ctx.authenticator_program.key)
    fun _ =>
  andThen (dataHashGuard args.rule_data msg.rule_data_hash) fun _ =>
  andThen (accountsHashGuard
      (accountsStreamWS ctx.authenticator_program.key ctx.remaining_accounts)
      msg.rule_accounts_hash) fun _ =>
  if ¬ (8 ≤ args.rule_data.length ∧
      args.rule_data.take 8 = sighash globalNs checkRuleName) then
    .error .InvalidCheckRuleDiscriminator
  else
  andThen (execute_cpi env ctx.remaining_accounts args.rule_data ctx.authenticator_program)
    fun ruleEffects =>
  andThen (bumpNonce ctx.smart_wallet_config) fun cfg =>
  .ok ⟨ruleEffects, cfg,
    { owner_wallet := ctx.smart_wallet.key
      -- `target_program` is never written by the handler; Anchor `init`
      -- zero-initializes the account, so it stays the default pubkey.
      target_program := List.replicate 32 0
      data_hash := msg.cpi_data_hash
      accounts_hash := msg.cpi_accounts_hash
      authorized_nonce := ctx.smart_wallet_config.last_nonce
      expires_at := args.expires_at
      rent_refund_to := ctx.payer.key }⟩

/-! ## `execute_committed` (instructions/execute/chunk/execute_committed.rs) -/

/-- The handler body. Binding failures return `Ok` with no effects and an
unchanged wallet record (a graceful no-op); only the execution branch itself
can fail hard. -/
def execute_committed (env : Env) (ctx : ExecuteCommittedAccounts) (cpiData : Bytes) :
    Except Err HandlerOk :=
  match validate_remaining_accounts ctx.remaining_accounts with
  | .error _ => .ok ⟨[], ctx.smart_wallet_config⟩
  | .ok () =>
  if ctx.cpi_commit.expires_at < env.now then .ok ⟨[], ctx.smart_wallet_config⟩
  else if ctx.cpi_commit.owner_wallet ≠ ctx.smart_wallet.key then
    .ok ⟨[], ctx.smart_wallet_config⟩
  else if ¬ ctx.cpi_program.executable then .ok ⟨[], ctx.smart_wallet_config⟩
  else if Sha256.sha256 cpiData ≠ ctx.cpi_commit.data_hash then
    .ok ⟨[], ctx.smart_wallet_config⟩
  else if Sha256.sha256 (accountsStreamS ctx.cpi_program.key ctx.remaining_accounts) ≠
      ctx.cpi_commit.accounts_hash then .ok ⟨[], ctx.smart_wallet_config⟩
  else
  andThen (nativeTransferOrCpi env ctx.smart_wallet ctx.cpi_program ctx.remaining_accounts
      cpiData ctx.config.execute_fee) fun mainEffects =>
  andThen (bumpNonce ctx.smart_wallet_config) fun cfg =>
  .ok ⟨mainEffects, cfg⟩

/-- The full `execute_committed` instruction: the handler body plus Anchor's
`#[account(mut, close = commit_refund)]` on `cpi_commit` together with
`#[account(address = cpi_commit.rent_refund_to)]` on `commit_refund`, which
close the commit record and refund its rent whenever the instruction
returns `Ok`. -/
def executeCommittedInstruction (env : Env) (ctx : ExecuteCommittedAccounts)
    (cpiData : Bytes) : Except Err HandlerOk :=
  match execute_committed env ctx cpiData with
  | .error e => .error e
  | .ok r =>
    .ok { r with effects :=
      r.effects ++ [.closeAccount ctx.cpi_commit_key ctx.cpi_commit.rent_refund_to] }

/-- Flip the `is_writable` flag of the account at position `i`. -/
def flipWritableAt : List AccountInfo → Nat → List AccountInfo
  | [], _ => []
  | a :: rest, 0 => { a with is_writable := ¬ a.is_writable } :: rest
  | a :: rest, i + 1 => a :: flipWritableAt rest i

/-- Well-formed `ExecuteMessage`: representable fields. -/
def ExecuteMessageWf (m : ExecuteMessage) : Prop :=
  m.nonce ≤ u64Max ∧ i64Min ≤ m.current_timestamp ∧ m.current_timestamp ≤ i64Max ∧
  m.rule_data_hash.length = 32 ∧ m.rule_accounts_hash.length = 32 ∧
  m.cpi_data_hash.length = 32 ∧ m.cpi_accounts_hash.length = 32

/-- Well-formed `CallRuleMessage`. -/
def CallRuleMessageWf (m : CallRuleMessage) : Prop :=
  m.nonce ≤ u64Max ∧ i64Min ≤ m.current_timestamp ∧ m.current_timestamp ≤ i64Max ∧
  m.rule_data_hash.length = 32 ∧ m.rule_accounts_hash.length = 32 ∧
  (∀ p, m.new_passkey = some p → p.length = 33)

/-- Well-formed `ChangeRuleMessage`. -/
def ChangeRuleMessageWf (m : ChangeRuleMessage) : Prop :=
  m.nonce ≤ u64Max ∧ i64Min ≤ m.current_timestamp ∧ m.current_timestamp ≤ i64Max ∧
  m.old_rule_data_hash.length = 32 ∧ m.old_rule_accounts_hash.length = 32 ∧
  m.new_rule_data_hash.length = 32 ∧ m.new_rule_accounts_hash.length = 32

/-! ## Concrete test vectors

Fixed inputs for the concrete runs below. Each 32-byte literal named `...Hash`
is the SHA-256 digest of the byte string its doc comment states; nothing
depends on the literals being correct digests — every run that compares one
recomputes the corresponding `Sha256.sha256` application and the kernel checks
the equality during evaluation. -/

def z32 : Bytes := List.replicate 32 0

/-- A syntactically valid compressed passkey (leading byte 2). -/
def pkA : Bytes := 2 :: List.replicate 32 7

def sigA : Bytes := List.replicate 64 3

def walletKeyA : Pubkey := List.replicate 32 9

def progKeyA : Pubkey := List.replicate 32 1

def progKeyB : Pubkey := List.replicate 32 2

def destKeyA : Pubkey := List.replicate 32 5

def payerKeyA : Pubkey := List.replicate 32 8

def commitKeyA : Pubkey := List.replicate 32 12

/-- Opaque `client_data_json` bytes. -/
def cdjA : Bytes := [123, 125]

/-- Opaque `authenticator_data` bytes. -/
def adA : Bytes := [55]

/-- SHA-256 of `cdjA`. -/
def cdjHashA : Bytes :=
  [68, 19, 111, 163, 85, 179, 103, 138, 17, 70, 173, 22, 247, 232, 100, 158,
   148, 251, 79, 194, 31, 231, 126, 131, 16, 192, 96, 246, 28, 170, 255, 138]

/-- The signed WebAuthn message `authenticator_data ‖ SHA-256(client_data_json)`. -/
def msgBA : Bytes := adA ++ cdjHashA

def deviceA : SmartWalletAuthenticator := ⟨pkA, walletKeyA, [], 0⟩

def payerAcctA : AccountInfo := ⟨payerKeyA, 500, z32, false, true, true, true⟩

/-- The smart wallet PDA: owned by the lazorkit program, holding 1000000
lamports. -/
def walletAcctA : AccountInfo :=
  ⟨walletKeyA, 1000000, lazorkitID, false, false, true, true⟩

def destAcctA : AccountInfo := ⟨destKeyA, 10, z32, false, false, true, true⟩

/-- A rule account: signer, not writable. -/
def ruleAcctA : AccountInfo := ⟨List.replicate 32 4, 0, z32, false, true, false, true⟩

/-- `ruleAcctA` with its `is_writable` flag flipped on. -/
def ruleAcctFlipped : AccountInfo := { ruleAcctA with is_writable := true }

def initAcctA : AccountInfo := ⟨List.replicate 32 6, 0, z32, false, false, false, true⟩

def ruleProgAcctA : AccountInfo := ⟨progKeyA, 1, z32, true, false, false, false⟩

def ruleProgAcctB : AccountInfo := ⟨progKeyB, 1, z32, true, false, false, false⟩

def sysProgAcct : AccountInfo := ⟨systemProgramID, 1, z32, true, false, false, false⟩

/-- An unpaused protocol config whose default rule program is `progKeyA`;
both fees are zero. -/
def configA : Config := ⟨List.replicate 32 11, 0, 0, progKeyA, false⟩

def configPausedA : Config := { configA with is_paused := true }

/-- A wallet record at nonce 5, pointing at rule program `progKeyA`. -/
def cfgA : SmartWalletConfig := ⟨3, progKeyA, 5, 250⟩

/-- A well-formed secp256r1 verification-record payload for one signature:
the 16-byte offset header (`num_signatures = 1`, `u16::MAX` instruction
indexes, pubkey at 16, signature at 49, message at 113) followed by the three
regions, exactly the layout `verify_secp256r1_instruction` checks for. -/
def secpIxData (pk sig msgB : Bytes) : Bytes :=
  [1, 0, 49, 0, 255, 255, 16, 0, 255, 255, 113, 0] ++ leBytes 2 msgB.length ++
    [255, 255] ++ pk ++ sig ++ msgB

def secpIxFor (pk sig msgB : Bytes) : Instruction :=
  ⟨secp256r1ID, [], secpIxData pk sig msgB⟩

/-- An environment: clock 1000, rent minimum 0, one sysvar instruction, every
WebAuthn envelope decoding to `cb`, every CPI succeeding. -/
def envFor (cb : Bytes) (ix : Instruction) : Env :=
  ⟨1000, 0, [ix], fun _ => .ok cb, fun _ _ => true⟩

/-- `sighash globalNs checkRuleName`. -/
def ruleDataA : Bytes := [215, 90, 220, 175, 191, 212, 144, 147]

/-- `sighash globalNs destroyName`. -/
def destroyDataA : Bytes := [157, 40, 96, 3, 135, 203, 143, 74]

/-- `sighash globalNs initRuleName`. -/
def initDataA : Bytes := [129, 224, 96, 169, 247, 125, 74, 118]

/-- A native SOL transfer payload, amount 5. -/
def cpiDataT : Bytes := [2, 0, 0, 0, 5, 0, 0, 0, 0, 0, 0, 0]

/-- A native SOL transfer payload, amount 0. -/
def cpiData0 : Bytes := [2, 0, 0, 0, 0, 0, 0, 0, 0, 0, 0, 0]

/-- A native SOL transfer payload, amount 7. -/
def cpiData7 : Bytes := [2, 0, 0, 0, 7, 0, 0, 0, 0, 0, 0, 0]

/-- SHA-256 of `ruleDataA`. -/
def ruleDataHashA : Bytes :=
  [32, 83, 80, 7, 40, 176, 137, 245, 10, 237, 10, 126, 2, 245, 104, 19,
   152, 119, 135, 216, 100, 72, 169, 232, 156, 65, 57, 1, 169, 185, 182, 188]

/-- SHA-256 of `destroyDataA`. -/
def destroyDataHashA : Bytes :=
  [226, 231, 54, 62, 138, 114, 73, 216, 193, 149, 243, 59, 248, 220, 115, 35,
   39, 76, 196, 25, 124, 147, 83, 168, 4, 48, 211, 29, 159, 51, 191, 99]

/-- SHA-256 of `initDataA`. -/
def initDataHashA : Bytes :=
  [41, 40, 181, 200, 75, 115, 100, 123, 188, 81, 228, 119, 122, 180, 254, 105,
   255, 1, 127, 100, 203, 255, 115, 171, 233, 106, 70, 180, 139, 112, 110, 239]

/-- SHA-256 of `cpiDataT`. -/
def cpiDataTHash : Bytes :=
  [197, 252, 24, 80, 86, 249, 105, 196, 132, 192, 45, 194, 130, 100, 222, 77,
   137, 38, 115, 26, 221, 46, 188, 46, 65, 159, 179, 254, 221, 255, 179, 134]

/-- SHA-256 of `cpiData0`. -/
def cpiData0Hash : Bytes :=
  [183, 104, 117, 197, 14, 247, 4, 219, 191, 127, 2, 201, 130, 68, 89, 113,
   209, 187, 214, 26, 235, 226, 228, 178, 141, 220, 88, 161, 214, 99, 23, 213]

/-- SHA-256 of `cpiData7`. -/
def cpiData7Hash : Bytes :=
  [50, 83, 236, 93, 191, 66, 63, 49, 175, 226, 88, 141, 3, 82, 253, 3,
   243, 22, 83, 251, 149, 56, 60, 69, 207, 89, 103, 127, 89, 134, 223, 169]

/-- SHA-256 of `accountsStreamWS progKeyA [ruleAcctA]`. -/
def ruleStreamWSHash : Bytes :=
  [179, 174, 130, 147, 7, 141, 55, 29, 60, 236, 175, 81, 80, 199, 228, 227,
   129, 92, 126, 192, 129, 85, 83, 214, 58, 96, 35, 8, 12, 205, 29, 44]

/-- SHA-256 of `accountsStreamWS systemProgramID [walletAcctA, destAcctA]`. -/
def cpiStreamWSHash : Bytes :=
  [101, 168, 33, 98, 81, 93, 158, 182, 123, 26, 89, 236, 224, 235, 236, 226,
   81, 134, 9, 13, 253, 181, 11, 154, 239, 63, 157, 53, 108, 222, 218, 166]

/-- SHA-256 of `accountsStreamS progKeyA [ruleAcctA]`; also the digest of
`accountsStreamS progKeyA [ruleAcctFlipped]`, since the signer-only stream
drops `is_writable`. -/
def ruleStreamSHash : Bytes :=
  [5, 0, 180, 170, 223, 139, 191, 45, 0, 61, 162, 115, 154, 217, 79, 218,
   189, 105, 39, 178, 92, 109, 209, 88, 128, 53, 106, 211, 199, 25, 88, 144]

/-- SHA-256 of `accountsStreamS progKeyB [initAcctA]`. -/
def initStreamSHash : Bytes :=
  [232, 48, 125, 170, 69, 4, 34, 56, 193, 74, 233, 39, 2, 42, 35, 129,
   113, 7, 64, 81, 195, 184, 73, 145, 65, 34, 45, 209, 15, 185, 81, 253]

/-- SHA-256 of `accountsStreamS systemProgramID [walletAcctA, destAcctA]`. -/
def cpiStreamSHash : Bytes :=
  [49, 157, 79, 253, 163, 9, 220, 212, 203, 23, 63, 151, 48, 6, 152, 153,
   111, 252, 143, 93, 215, 114, 36, 97, 141, 72, 145, 74, 111, 111, 116, 82]

/-! A complete successful `execute_txn_direct` run (native transfer of 5). -/

def msgT : ExecuteMessage :=
  ⟨5, 1000, ruleDataHashA, ruleStreamWSHash, cpiDataTHash, cpiStreamWSHash⟩

def cbT : Bytes := serializeExecuteMessage msgT

def envT : Env := envFor cbT (secpIxFor pkA sigA msgBA)

def ctxT : ExecuteTxnAccounts :=
  ⟨payerAcctA, walletAcctA, cfgA, deviceA, [progKeyA], ruleProgAcctA, sysProgAcct,
   configA, [ruleAcctA, walletAcctA, destAcctA]⟩

def argsT : ExecuteTxnArgs := ⟨pkA, sigA, cdjA, adA, 0, 1, ruleDataA, cpiDataT⟩

def resT : HandlerOk :=
  ⟨[.cpi progKeyA ruleDataA [ruleAcctA], .transfer walletKeyA destKeyA 5],
   ⟨3, progKeyA, 6, 250⟩⟩

/-- `ctxT` after the `resT` run rewrote the wallet record: the second-use
context of the replay conjunct. -/
def ctxT2 : ExecuteTxnAccounts := { ctxT with smart_wallet_config := ⟨3, progKeyA, 6, 250⟩ }

/-! The same run with a zero transfer amount. -/

def msgZ : ExecuteMessage :=
  ⟨5, 1000, ruleDataHashA, ruleStreamWSHash, cpiData0Hash, cpiStreamWSHash⟩

def cbZ : Bytes := serializeExecuteMessage msgZ

def envZ : Env := envFor cbZ (secpIxFor pkA sigA msgBA)

def argsZ : ExecuteTxnArgs := ⟨pkA, sigA, cdjA, adA, 0, 1, ruleDataA, cpiData0⟩

def resZ : HandlerOk := ⟨[.cpi progKeyA ruleDataA [ruleAcctA]], ⟨3, progKeyA, 6, 250⟩⟩

/-! A challenge that is both stale (timestamp 100 against clock 1000) and
nonce-mismatched (6 against `last_nonce` 5). -/

def msgN : ExecuteMessage := ⟨6, 100, z32, z32, z32, z32⟩

def cbN : Bytes := serializeExecuteMessage msgN

def envN : Env := envFor cbN (secpIxFor pkA sigA msgBA)

/-! A complete successful `call_rule_direct` run. -/

def msgR : CallRuleMessage := ⟨5, 1000, ruleDataHashA, ruleStreamSHash, none⟩

def cbR : Bytes := serializeCallRuleMessage msgR

def envR : Env := envFor cbR (secpIxFor pkA sigA msgBA)

def ctxR : CallRuleAccounts :=
  ⟨payerAcctA, configA, walletAcctA, cfgA, deviceA, ruleProgAcctA, [progKeyA], [ruleAcctA]⟩

def argsR : CallRuleArgs := ⟨pkA, sigA, cdjA, adA, 0, ruleDataA, none⟩

def resR : HandlerOk := ⟨[.cpi progKeyA ruleDataA [ruleAcctA]], ⟨3, progKeyA, 6, 250⟩⟩

/-- A nonce-mismatched, stale `CallRuleMessage`. -/
def msgRN : CallRuleMessage := ⟨6, 100, z32, z32, none⟩

def cbRN : Bytes := serializeCallRuleMessage msgRN

def envRN : Env := envFor cbRN (secpIxFor pkA sigA msgBA)

/-! A complete successful `commit_cpi` run. -/

def msgK : ExecuteMessage := ⟨5, 1000, ruleDataHashA, ruleStreamWSHash, z32, z32⟩

def cbK : Bytes := serializeExecuteMessage msgK

def envK : Env := envFor cbK (secpIxFor pkA sigA msgBA)

def ctxK : CommitAccounts :=
  ⟨payerAcctA, configA, walletAcctA, cfgA, deviceA, [progKeyA], ruleProgAcctA,
   systemProgramID, [ruleAcctA]⟩

def argsK : CommitArgs := ⟨pkA, sigA, cdjA, adA, 0, ruleDataA, 2000⟩

def resK : CommitOk :=
  ⟨[.cpi progKeyA ruleDataA [ruleAcctA]], ⟨3, progKeyA, 6, 250⟩,
   ⟨walletKeyA, z32, z32, z32, 5, 2000, payerKeyA⟩⟩

/-! A complete successful `change_rule_direct` run whose challenge hashes were
computed over `ruleAcctA` but whose remaining accounts carry
`ruleAcctFlipped`. -/

def msgC : ChangeRuleMessage :=
  ⟨5, 1000, destroyDataHashA, ruleStreamSHash, initDataHashA, initStreamSHash⟩

def cbC : Bytes := serializeChangeRuleMessage msgC

def envC : Env := envFor cbC (secpIxFor pkA sigA msgBA)

def ctxC : ChangeRuleAccounts :=
  ⟨payerAcctA, configA, walletAcctA, cfgA, deviceA, ruleProgAcctA, ruleProgAcctB,
   [progKeyA, progKeyB], [ruleAcctFlipped, initAcctA]⟩

def argsC : ChangeRuleArgs := ⟨pkA, sigA, cdjA, adA, 0, 1, destroyDataA, initDataA, none⟩

def resC : HandlerOk :=
  ⟨[.cpi progKeyA destroyDataA [ruleAcctFlipped], .cpi progKeyB initDataA [initAcctA]],
   ⟨3, progKeyB, 6, 250⟩⟩

/-- A nonce-mismatched, stale `ChangeRuleMessage`. -/
def msgCN : ChangeRuleMessage := ⟨6, 100, z32, z32, z32, z32⟩

def cbCN : Bytes := serializeChangeRuleMessage msgCN

def envCN : Env := envFor cbCN (secpIxFor pkA sigA msgBA)

/-! `execute_committed` runs: a successful redemption (transfer of 5), the
same shape paused (transfer of 7), and an expired no-op. -/

def envE : Env := ⟨1000, 0, [], fun _ => .error .ChallengeMissing, fun _ _ => true⟩

def commitE5 : CpiCommit := ⟨walletKeyA, z32, cpiDataTHash, cpiStreamSHash, 5, 2000, destKeyA⟩

def ctxE5 : ExecuteCommittedAccounts :=
  ⟨payerAcctA, configA, walletAcctA, cfgA, sysProgAcct, commitE5, commitKeyA,
   [walletAcctA, destAcctA]⟩

def resE5 : HandlerOk :=
  ⟨[.transfer walletKeyA destKeyA 5, .closeAccount commitKeyA destKeyA],
   ⟨3, progKeyA, 6, 250⟩⟩

def commitE6 : CpiCommit := ⟨walletKeyA, z32, cpiData7Hash, cpiStreamSHash, 5, 2000, destKeyA⟩

def ctxE6 : ExecuteCommittedAccounts :=
  ⟨payerAcctA, configPausedA, walletAcctA, cfgA, sysProgAcct, commitE6, commitKeyA,
   [walletAcctA, destAcctA]⟩

def resE6 : HandlerOk :=
  ⟨[.transfer walletKeyA destKeyA 7, .closeAccount commitKeyA destKeyA],
   ⟨3, progKeyA, 6, 250⟩⟩

/-- An expired commit record (expiry 500 against clock 1000). -/
def commitExp : CpiCommit := ⟨walletKeyA, z32, z32, z32, 5, 500, destKeyA⟩

def ctxExp : ExecuteCommittedAccounts :=
  ⟨payerAcctA, configA, walletAcctA, cfgA, sysProgAcct, commitExp, commitKeyA, []⟩

/-! Paused variants of the four passkey-authorized contexts. -/

def ctxTP : ExecuteTxnAccounts := { ctxT with config := configPausedA }

def ctxCP : ChangeRuleAccounts := { ctxC with config := configPausedA }

def ctxRP : CallRuleAccounts := { ctxR with config := configPausedA }

def ctxKP : CommitAccounts := { ctxK with config := configPausedA }

/-! Small messages for the freshness-window and codec instances. -/

def msgW9 : ExecuteMessage := ⟨0, 1005, z32, z32, z32, z32⟩

def cbW9 : Bytes := serializeExecuteMessage msgW9

def msgW9c : CallRuleMessage := ⟨0, 1005, z32, z32, none⟩

def cbW9c : Bytes := serializeCallRuleMessage msgW9c

def msgW9h : ChangeRuleMessage := ⟨0, 1005, z32, z32, z32, z32⟩

def cbW9h : Bytes := serializeChangeRuleMessage msgW9h

def msgW10e : ExecuteMessage := ⟨1, -5, z32, z32, z32, z32⟩

def msgW10c : CallRuleMessage := ⟨2, 7, z32, z32, some pkA⟩

def msgW10h : ChangeRuleMessage := ⟨3, 9, z32, z32, z32, z32⟩

def c3MsgA : Bytes := [10, 20, 30]

/-- A native-transfer payload whose amount field reads `u64::MAX`. -/
def cpiDataBig : Bytes := [2, 0, 0, 0] ++ List.replicate 8 255

/-- `ctxC` with a default rule program equal to neither side of the
transition. -/
def ctxC7 : ChangeRuleAccounts :=
  { ctxC with config := { configA with default_rule_program := destKeyA } }

/-! # Inversion toolkit -/

theorem andThen_eq_ok {α β : Type} {x : Except Err α} {f : α → Except Err β} {r : β} :
    andThen x f = .ok r ↔ ∃ v, x = .ok v ∧ f v = .ok r := by
  cases x <;> simp [andThen]

theorem okOr_eq_ok {α : Type} {x : Option α} {e : Err} {v : α} :
    okOr x e = .ok v ↔ x = some v := by
  cases x <;> simp [okOr]

theorem ite_error_eq_ok {α : Type} {c : Prop} [Decidable c] {e : Err} {x : Except Err α}
    {r : α} : (if c then Except.error e else x) = .ok r ↔ ¬ c ∧ x = .ok r := by
  split <;> simp_all

theorem accountsHashGuard_eq_ok {s exp : Bytes} {u : Unit} :
    accountsHashGuard s exp = .ok u ↔ Sha256.sha256 s = exp := by
  unfold accountsHashGuard; split <;> simp_all

theorem dataHashGuard_eq_ok {d exp : Bytes} {u : Unit} :
    dataHashGuard d exp = .ok u ↔ Sha256.sha256 d = exp := by
  unfold dataHashGuard; split <;> simp_all

theorem defaultTransitionGuard_eq_ok {oldProg newProg dflt : Pubkey} {u : Unit} :
    defaultTransitionGuard oldProg newProg dflt = .ok u ↔
      oldProg = dflt ∨ newProg = dflt := by
  unfold defaultTransitionGuard; split <;> simp_all

theorem check_whitelist_eq_ok {registry : List Pubkey} {p : Pubkey} {u : Unit} :
    check_whitelist registry p = .ok u ↔ p ∈ registry := by
  unfold check_whitelist; split <;> simp_all

theorem validate_program_executable_eq_ok {p : AccountInfo} {u : Unit} :
    validate_program_executable p = .ok u ↔ p.executable = true := by
  unfold validate_program_executable; split <;> simp_all

theorem split_remaining_accounts_eq_ok {accs : List AccountInfo} {i : Nat}
    {p : List AccountInfo × List AccountInfo} :
    split_remaining_accounts accs i = .ok p ↔
      i ≤ accs.length ∧ p = (accs.take i, accs.drop i) := by
  unfold split_remaining_accounts; split <;> simp_all [eq_comm]

theorem execute_cpi_eq_ok {env : Env} {accs : List AccountInfo} {data : Bytes}
    {prog : AccountInfo} {l : List Effect} :
    execute_cpi env accs data prog = .ok l ↔
      env.cpiOk prog.key data = true ∧ l = [.cpi prog.key data accs] := by
  unfold execute_cpi
  split
  · next hc => simp [hc, eq_comm]
  · next hc => simp [hc]

theorem bumpNonce_eq_ok {cfg cfg' : SmartWalletConfig} :
    bumpNonce cfg = .ok cfg' ↔
      cfg.last_nonce + 1 ≤ u64Max ∧
        cfg' = { cfg with last_nonce := cfg.last_nonce + 1 } := by
  unfold bumpNonce checkedAddU64
  simp only [andThen_eq_ok, okOr_eq_ok]
  constructor
  · rintro ⟨v, hv, h⟩
    split at hv
    · cases hv; cases h; simp_all
    · exact Option.noConfusion hv
  · rintro ⟨hle, rfl⟩
    exact ⟨cfg.last_nonce + 1, by simp [hle], rfl⟩

theorem verify_authorization_ok {M : Type} {parse : Bytes → Option (M × Bytes)}
    {mVerify : Bytes → Int → Nat → Except Err Unit} {env : Env}
    {device : SmartWalletAuthenticator} {wk : Pubkey} {pk sig cdj ad : Bytes}
    {idx ln : Nat} {m : M}
    (h : verify_authorization parse mVerify env device wk pk sig cdj ad idx ln = .ok m) :
    ∃ cb rest, env.decodeChallenge cdj = .ok cb ∧ mVerify cb env.now ln = .ok () ∧
      parse cb = some (m, rest) ∧ device.passkey_pubkey = pk ∧ device.smart_wallet = wk := by
  unfold verify_authorization at h
  simp only [andThen_eq_ok, okOr_eq_ok, ite_error_eq_ok] at h
  obtain ⟨hpk, hwk, secpIx, hix, cb, hcb, u1, hsecp, u2, hver, mr, hparse, hm⟩ := h
  cases hm
  exact ⟨cb, mr.2, hcb, by simpa using hver, by simpa using hparse,
    not_ne_iff.mp hpk, not_ne_iff.mp hwk⟩

theorem transfer_sol_from_pda_eq_ok {src dst : AccountInfo} {amount : Nat}
    {l : List Effect} :
    transfer_sol_from_pda src dst amount = .ok l ↔
      (amount = 0 ∧ l = []) ∨
      (amount ≠ 0 ∧ src.owner = lazorkitID ∧ amount ≤ src.lamports ∧
        l = [.transfer src.key dst.key amount]) := by
  unfold transfer_sol_from_pda
  split_ifs with h1 h2 h3 <;> simp_all [eq_comm]

/-- Everything a successful native-transfer branch of `nativeTransferOrCpi`
guarantees. -/
theorem nativeTransferOrCpi_native_ok {env : Env} {sw prog : AccountInfo}
    {accs : List AccountInfo} {data : Bytes} {fee : Nat} {eff : List Effect}
    (hcond : 4 ≤ data.length ∧ data.take 4 = SOL_TRANSFER_DISCRIMINATOR ∧
      prog.key = systemProgramID)
    (h : nativeTransferOrCpi env sw prog accs data fee = .ok eff) :
    2 ≤ accs.length ∧ 12 ≤ data.length ∧
    leNat ((data.drop 4).take 8) ≤ u64Max / 2 ∧
    (accs.getD 1 dummyAccountInfo).key ≠ sw.key ∧
    leNat ((data.drop 4).take 8) + fee + env.rentExemptMin ≤ sw.lamports ∧
    eff = (if leNat ((data.drop 4).take 8) = 0 then [] else
      [.transfer sw.key ((accs.getD 1 dummyAccountInfo)).key
        (leNat ((data.drop 4).take 8))]) := by
  unfold nativeTransferOrCpi at h
  rw [if_pos hcond] at h
  simp only [andThen_eq_ok, okOr_eq_ok, ite_error_eq_ok] at h
  obtain ⟨hlen, hdlen, u1, hamt, hdest, s, hs, t, ht, hbal, htr⟩ := h
  rw [transfer_sol_from_pda_eq_ok] at htr
  have hvl : leNat ((data.drop 4).take 8) ≤ u64Max / 2 := by
    revert hamt; unfold validate_lamport_amount; split <;> simp_all
  refine ⟨by omega, by omega, hvl, hdest, ?_, ?_⟩
  · unfold checkedAddU64 at hs ht
    split_ifs at hs with hs1
    cases hs
    split_ifs at ht with ht1
    cases ht
    omega
  · rcases htr with ⟨hz, rfl⟩ | ⟨hnz, _, _, rfl⟩
    · simp [hz]
    · simp [hnz]

/-- Everything a successful `execute_txn_direct` run guarantees. -/
theorem execute_txn_direct_ok_facts {env : Env} {ctx : ExecuteTxnAccounts}
    {args : ExecuteTxnArgs} {r : HandlerOk}
    (h : execute_txn_direct env ctx args = .ok r) :
    ∃ msg cb rest ruleEff mainEff,
      env.decodeChallenge args.client_data_json_raw = .ok cb ∧
      deserializeExecuteMessage cb = some (msg, rest) ∧
      executeMessageVerify cb env.now ctx.smart_wallet_config.last_nonce = .ok () ∧
      Sha256.sha256 args.rule_data = msg.rule_data_hash ∧
      Sha256.sha256 (accountsStreamWS ctx.authenticator_program.key
        (ctx.remaining_accounts.take args.split_index)) = msg.rule_accounts_hash ∧
      Sha256.sha256 args.cpi_data = msg.cpi_data_hash ∧
      Sha256.sha256 (accountsStreamWS ctx.cpi_program.key
        (ctx.remaining_accounts.drop args.split_index)) = msg.cpi_accounts_hash ∧
      nativeTransferOrCpi env ctx.smart_wallet ctx.cpi_program
        (ctx.remaining_accounts.drop args.split_index) args.cpi_data
        ctx.config.execute_fee = .ok mainEff ∧
      execute_cpi env (ctx.remaining_accounts.take args.split_index) args.rule_data
        ctx.authenticator_program = .ok ruleEff ∧
      ctx.smart_wallet_config.last_nonce + 1 ≤ u64Max ∧
      ctx.config.is_paused = false ∧
      r = ⟨ruleEff ++ mainEff,
        { ctx.smart_wallet_config with
            last_nonce := ctx.smart_wallet_config.last_nonce + 1 }⟩ := by
  unfold execute_txn_direct at h
  simp only [andThen_eq_ok, okOr_eq_ok, ite_error_eq_ok, dataHashGuard_eq_ok,
    accountsHashGuard_eq_ok, split_remaining_accounts_eq_ok, bumpNonce_eq_ok] at h
  obtain ⟨u1, hargs, hpaused, u2, hrem, msg, hva, u3, hexec, u4, hwl, hprog, accs,
    ⟨hlen, haccs⟩, hrne, hdisc, u5, hrd, u6, hrdh, u7, hrah, ruleEff, hrcpi, u8, hcd,
    u9, hcdh, u10, hcah, mainEff, hmain, cfg, ⟨hmax, hcfg⟩, hr⟩ := h
  obtain ⟨cb, rest, hcb, hver, hparse, _, _⟩ := verify_authorization_ok hva
  subst haccs
  subst hcfg
  cases hr
  exact ⟨msg, cb, rest, ruleEff, mainEff, hcb, hparse, hver, hrdh, hrah, hcdh, hcah,
    hmain, hrcpi, hmax, by simpa using hpaused, rfl⟩


/-- Everything a successful `change_rule_direct` run guarantees. -/
theorem change_rule_direct_ok_facts {env : Env} {ctx : ChangeRuleAccounts}
    {args : ChangeRuleArgs} {r : HandlerOk}
    (h : change_rule_direct env ctx args = .ok r) :
    ∃ msg cb rest authEff dEff iEff,
      env.decodeChallenge args.client_data_json_raw = .ok cb ∧
      deserializeChangeRuleMessage cb = some (msg, rest) ∧
      changeRuleMessageVerify cb env.now ctx.smart_wallet_config.last_nonce = .ok () ∧
      ctx.old_rule_program.key ∈ ctx.whitelist_rule_programs ∧
      ctx.new_rule_program.key ∈ ctx.whitelist_rule_programs ∧
      ctx.smart_wallet_config.rule_program = ctx.old_rule_program.key ∧
      ctx.old_rule_program.key ≠ ctx.new_rule_program.key ∧
      (ctx.old_rule_program.key = ctx.config.default_rule_program ∨
        ctx.new_rule_program.key = ctx.config.default_rule_program) ∧
      Sha256.sha256 (accountsStreamS ctx.old_rule_program.key
        (ctx.remaining_accounts.take args.split_index)) = msg.old_rule_accounts_hash ∧
      Sha256.sha256 (accountsStreamS ctx.new_rule_program.key
        (ctx.remaining_accounts.drop args.split_index)) = msg.new_rule_accounts_hash ∧
      Sha256.sha256 args.destroy_rule_data = msg.old_rule_data_hash ∧
      Sha256.sha256 args.init_rule_data = msg.new_rule_data_hash ∧
      ctx.smart_wallet_config.last_nonce + 1 ≤ u64Max ∧
      ctx.config.is_paused = false ∧
      newAuthenticatorStep ctx.remaining_accounts ctx.smart_wallet.key
        args.new_authenticator = .ok authEff ∧
      execute_cpi env (ctx.remaining_accounts.take args.split_index)
        args.destroy_rule_data ctx.old_rule_program = .ok dEff ∧
      execute_cpi env (ctx.remaining_accounts.drop args.split_index)
        args.init_rule_data ctx.new_rule_program = .ok iEff ∧
      r = ⟨authEff ++ dEff ++ iEff,
        { ctx.smart_wallet_config with
            rule_program := ctx.new_rule_program.key
            last_nonce := ctx.smart_wallet_config.last_nonce + 1 }⟩ := by
  unfold change_rule_direct at h
  simp only [andThen_eq_ok, okOr_eq_ok, ite_error_eq_ok, dataHashGuard_eq_ok,
    accountsHashGuard_eq_ok, defaultTransitionGuard_eq_ok, check_whitelist_eq_ok,
    validate_program_executable_eq_ok, bumpNonce_eq_ok] at h
  obtain ⟨u1, hargs, hpaused, u2, hrem, u3, hexeo, u4, hexen, u5, hwlo, u6, hwln,
    hprog, hident, u7, hds, u8, his, msg, hva, hsplit, u9, hoah, u10, hnah, hd1, hd2,
    u11, hodh, u12, hndh, u13, hdflt, authEff, hauth, dEff, hdcpi, iEff, hicpi,
    cfg, ⟨hmax, hcfg⟩, hr⟩ := h
  obtain ⟨cb, rest, hcb, hver, hparse, _, _⟩ := verify_authorization_ok hva
  subst hcfg
  cases hr
  exact ⟨msg, cb, rest, authEff, dEff, iEff, hcb, hparse, hver, hwlo, hwln,
    not_ne_iff.mp hprog, hident, hdflt, hoah, hnah, hodh, hndh, hmax,
    by simpa using hpaused, hauth, hdcpi, hicpi, rfl⟩

/-- Everything a successful `call_rule_direct` run guarantees. -/
theorem call_rule_direct_ok_facts {env : Env} {ctx : CallRuleAccounts}
    {args : CallRuleArgs} {r : HandlerOk}
    (h : call_rule_direct env ctx args = .ok r) :
    ∃ msg cb rest authEff ruleEff,
      env.decodeChallenge args.client_data_json_raw = .ok cb ∧
      deserializeCallRuleMessage cb = some (msg, rest) ∧
      callRuleMessageVerify cb env.now ctx.smart_wallet_config.last_nonce = .ok () ∧
      Sha256.sha256 args.rule_data = msg.rule_data_hash ∧
      Sha256.sha256 (accountsStreamS ctx.rule_program.key
        (callRuleAccs ctx.remaining_accounts args.new_authenticator)) =
        msg.rule_accounts_hash ∧
      ctx.smart_wallet_config.last_nonce + 1 ≤ u64Max ∧
      ctx.config.is_paused = false ∧
      r = ⟨authEff ++ ruleEff,
        { ctx.smart_wallet_config with
            last_nonce := ctx.smart_wallet_config.last_nonce + 1 }⟩ := by
  unfold call_rule_direct at h
  simp only [andThen_eq_ok, okOr_eq_ok, ite_error_eq_ok, dataHashGuard_eq_ok,
    accountsHashGuard_eq_ok, check_whitelist_eq_ok,
    validate_program_executable_eq_ok, bumpNonce_eq_ok] at h
  obtain ⟨u1, hargs, hpaused, u2, hrem, u3, hexec, hprog, u4, hwl, u5, hrd, msg, hva,
    u6, hdh, u7, hah, authEff, hna, ruleEff, hrcpi, cfg, ⟨hmax, hcfg⟩, hr⟩ := h
  obtain ⟨cb, rest, hcb, hver, hparse, _, _⟩ := verify_authorization_ok hva
  subst hcfg
  cases hr
  exact ⟨msg, cb, rest, authEff, ruleEff, hcb, hparse, hver, hdh, hah, hmax,
    by simpa using hpaused, rfl⟩

/-- Everything a successful `commit_cpi` run guarantees. -/
theorem commit_cpi_ok_facts {env : Env} {ctx : CommitAccounts} {args : CommitArgs}
    {r : CommitOk} (h : commit_cpi env ctx args = .ok r) :
    ∃ msg cb rest ruleEff,
      env.decodeChallenge args.client_data_json_raw = .ok cb ∧
      deserializeExecuteMessage cb = some (msg, rest) ∧
      executeMessageVerify cb env.now ctx.smart_wallet_config.last_nonce = .ok () ∧
      Sha256.sha256 args.rule_data = msg.rule_data_hash ∧
      Sha256.sha256 (accountsStreamWS ctx.authenticator_program.key
        ctx.remaining_accounts) = msg.rule_accounts_hash ∧
      ctx.smart_wallet_config.last_nonce + 1 ≤ u64Max ∧
      ctx.config.is_paused = false ∧
      r = ⟨ruleEff,
        { ctx.smart_wallet_config with
            last_nonce := ctx.smart_wallet_config.last_nonce + 1 },
        { owner_wallet := ctx.smart_wallet.key
          target_program := List.replicate 32 0
          data_hash := msg.cpi_data_hash
          accounts_hash := msg.cpi_accounts_hash
          authorized_nonce := ctx.smart_wallet_config.last_nonce
          expires_at := args.expires_at
          rent_refund_to := ctx.payer.key }⟩ := by
  unfold commit_cpi at h
  simp only [andThen_eq_ok, okOr_eq_ok, ite_error_eq_ok, dataHashGuard_eq_ok,
    accountsHashGuard_eq_ok, check_whitelist_eq_ok,
    validate_program_executable_eq_ok, bumpNonce_eq_ok] at h
  obtain ⟨u1, hrem, u2, hrd, hpaused, msg, hva, u3, hexec, hprog, u4, hwl, u5, hrdh,
    u6, hrah, hdisc, ruleEff, hrcpi, cfg, ⟨hmax, hcfg⟩, hr⟩ := h
  obtain ⟨cb, rest, hcb, hver, hparse, _, _⟩ := verify_authorization_ok hva
  subst hcfg
  cases hr
  exact ⟨msg, cb, rest, ruleEff, hcb, hparse, hver, hrdh, hrah, hmax,
    by simpa using hpaused, rfl⟩

/-- A successful `execute_committed` body run is a no-op or a redemption that
bumps the nonce. -/
theorem execute_committed_ok_cases {env : Env} {ctx : ExecuteCommittedAccounts}
    {d : Bytes} {r : HandlerOk} (h : execute_committed env ctx d = .ok r) :
    r = ⟨[], ctx.smart_wallet_config⟩ ∨
    (∃ eff, nativeTransferOrCpi env ctx.smart_wallet ctx.cpi_program
        ctx.remaining_accounts d ctx.config.execute_fee = .ok eff ∧
      r = ⟨eff, { ctx.smart_wallet_config with
        last_nonce := ctx.smart_wallet_config.last_nonce + 1 }⟩) := by
  unfold execute_committed at h
  split at h
  · left; cases h; rfl
  · split_ifs at h with h1 h2 h3 h4 h5
    all_goals (try (cases h; exact Or.inl rfl))
    simp only [andThen_eq_ok, bumpNonce_eq_ok] at h
    obtain ⟨eff, heff, cfg, ⟨hmax, hcfg⟩, hr⟩ := h
    subst hcfg
    cases hr
    exact Or.inr ⟨eff, heff, rfl⟩

/-- Any of the binding-failure conditions makes the `execute_committed` body a
successful no-op. -/
theorem execute_committed_noop {env : Env} {ctx : ExecuteCommittedAccounts} {d : Bytes}
    (hc : ctx.cpi_commit.expires_at < env.now ∨
      ctx.cpi_commit.owner_wallet ≠ ctx.smart_wallet.key ∨
      Sha256.sha256 d ≠ ctx.cpi_commit.data_hash ∨
      Sha256.sha256 (accountsStreamS ctx.cpi_program.key ctx.remaining_accounts) ≠
        ctx.cpi_commit.accounts_hash) :
    execute_committed env ctx d = .ok ⟨[], ctx.smart_wallet_config⟩ := by
  unfold execute_committed
  split
  · rfl
  · split_ifs with h1 h2 h3 h4 h5 <;>
      first
        | rfl
        | (exfalso; rcases hc with hc | hc | hc | hc <;> simp_all)

theorem leBytes_length (k v : Nat) : (leBytes k v).length = k := by
  induction k generalizing v with
  | zero => rfl
  | succ k ih => simp [leBytes, ih]

theorem leNat_leBytes (k v : Nat) : leNat (leBytes k v) = v % 256 ^ k := by
  induction k generalizing v with
  | zero => simp [leBytes, leNat, Nat.mod_one]
  | succ k ih =>
    have h256 : (0 : Nat) < 256 := by norm_num
    calc leNat (leBytes (k + 1) v)
        = v % 256 + 256 * leNat (leBytes k (v / 256)) := by simp [leBytes, leNat]
      _ = v % 256 + 256 * (v / 256 % 256 ^ k) := by rw [ih]
      _ = v % (256 * 256 ^ k) := (Nat.mod_mul).symm
      _ = v % 256 ^ (k + 1) := by ring_nf

theorem readBytesN_append {l rest : Bytes} {n : Nat} (h : l.length = n) :
    readBytesN n (l ++ rest) = some (l, rest) := by
  subst h
  simp [readBytesN, List.take_left, List.drop_left]

theorem readU64_append {v : Nat} {rest : Bytes} (h : v ≤ u64Max) :
    readU64 (u64LEBytes v ++ rest) = some (v, rest) := by
  unfold readU64 u64LEBytes
  rw [readBytesN_append (leBytes_length 8 v)]
  have hv : v % 256 ^ 8 = v := by
    apply Nat.mod_eq_of_lt
    have h8 : (256 : Nat) ^ 8 = 18446744073709551616 := by norm_num
    rw [h8]
    have h' : v ≤ 18446744073709551615 := h
    omega
  simp only [Option.map_some']
  rw [leNat_leBytes, hv]

theorem i64OfNat_emod (t : Int) (h1 : i64Min ≤ t) (h2 : t ≤ i64Max) :
    i64OfNat ((t % 18446744073709551616).toNat) = t := by
  unfold i64OfNat
  simp only [i64Min] at h1
  simp only [i64Max] at h2
  split_ifs <;> omega

theorem readI64_append {t : Int} {rest : Bytes} (h1 : i64Min ≤ t) (h2 : t ≤ i64Max) :
    readI64 (i64LEBytes t ++ rest) = some (t, rest) := by
  unfold readI64 i64LEBytes
  rw [readBytesN_append (leBytes_length 8 _)]
  have hlt : (t % 18446744073709551616).toNat < 256 ^ 8 := by
    have h8 : (256 : Nat) ^ 8 = 18446744073709551616 := by norm_num
    rw [h8]
    omega
  simp only [Option.map_some']
  rw [leNat_leBytes, Nat.mod_eq_of_lt hlt, i64OfNat_emod t h1 h2]

theorem readThen_some {α β : Type} {v : α} {rest : Bytes} {f : α → Bytes → Option β} :
    readThen (some (v, rest)) f = f v rest := rfl

theorem deserializeExecuteMessage_roundtrip (m : ExecuteMessage) (extra : Bytes)
    (hwf : ExecuteMessageWf m) :
    deserializeExecuteMessage (serializeExecuteMessage m ++ extra) = some (m, extra) := by
  obtain ⟨h1, h2, h3, h4, h5, h6, h7⟩ := hwf
  unfold deserializeExecuteMessage serializeExecuteMessage
  simp only [List.append_assoc]
  rw [readU64_append h1, readThen_some, readI64_append h2 h3, readThen_some,
    readBytesN_append h4, readThen_some, readBytesN_append h5, readThen_some,
    readBytesN_append h6, readThen_some, readBytesN_append h7, readThen_some]

theorem readOptionPasskey_append {pk : Option Bytes} {rest : Bytes}
    (h : ∀ p, pk = some p → p.length = 33) :
    readOptionPasskey (serializeOptionPasskey pk ++ rest) = some (pk, rest) := by
  cases pk with
  | none => rfl
  | some p =>
    have hp := h p rfl
    simp only [serializeOptionPasskey, List.cons_append, readOptionPasskey]
    rw [readBytesN_append hp]
    rfl

theorem deserializeCallRuleMessage_roundtrip (m : CallRuleMessage) (extra : Bytes)
    (hwf : CallRuleMessageWf m) :
    deserializeCallRuleMessage (serializeCallRuleMessage m ++ extra) = some (m, extra) := by
  obtain ⟨h1, h2, h3, h4, h5, h6⟩ := hwf
  unfold deserializeCallRuleMessage serializeCallRuleMessage
  simp only [List.append_assoc]
  rw [readU64_append h1, readThen_some, readI64_append h2 h3, readThen_some,
    readBytesN_append h4, readThen_some, readBytesN_append h5, readThen_some,
    readOptionPasskey_append h6, readThen_some]

theorem deserializeChangeRuleMessage_roundtrip (m : ChangeRuleMessage) (extra : Bytes)
    (hwf : ChangeRuleMessageWf m) :
    deserializeChangeRuleMessage (serializeChangeRuleMessage m ++ extra) =
      some (m, extra) := by
  obtain ⟨h1, h2, h3, h4, h5, h6, h7⟩ := hwf
  unfold deserializeChangeRuleMessage serializeChangeRuleMessage
  simp only [List.append_assoc]
  rw [readU64_append h1, readThen_some, readI64_append h2 h3, readThen_some,
    readBytesN_append h4, readThen_some, readBytesN_append h5, readThen_some,
    readBytesN_append h6, readThen_some, readBytesN_append h7, readThen_some]

/-! Timestamp window facts (state/message.rs). -/

theorem verifyHeader_ok_facts {n : Nat} {ts now : Int} {ln : Nat}
    (h : verifyHeader n ts now ln = .ok ()) :
    n = ln ∧ ¬ ts < i64SatSub now MAX_TIMESTAMP_DRIFT_SECONDS ∧
      ¬ ts > i64SatAdd now MAX_TIMESTAMP_DRIFT_SECONDS := by
  unfold verifyHeader at h
  split_ifs at h with h1 h2 h3
  simp_all

theorem verifyHeader_accept_window {n : Nat} {ts now : Int} {ln : Nat}
    (hts1 : i64Min ≤ ts) (hts2 : ts ≤ i64Max) (hn1 : i64Min ≤ now) (hn2 : now ≤ i64Max)
    (h : verifyHeader n ts now ln = .ok ()) :
    -30 ≤ ts - now ∧ ts - now ≤ 30 := by
  obtain ⟨-, h2, h3⟩ := verifyHeader_ok_facts h
  unfold i64SatSub i64SatAdd MAX_TIMESTAMP_DRIFT_SECONDS i64Min i64Max at *
  split_ifs at h2 h3 <;> omega

theorem verifyHeader_too_old {n : Nat} {ts now : Int} {ln : Nat}
    (hts1 : i64Min ≤ ts) (hn2 : now ≤ i64Max) (h : ts < now - 30) :
    verifyHeader n ts now ln = .error .TimestampTooOld := by
  unfold verifyHeader
  have hc : ts < i64SatSub now MAX_TIMESTAMP_DRIFT_SECONDS := by
    unfold i64SatSub MAX_TIMESTAMP_DRIFT_SECONDS i64Min i64Max at *
    split_ifs <;> omega
  rw [if_pos hc]

theorem verifyHeader_too_new {n : Nat} {ts now : Int} {ln : Nat}
    (hts1 : i64Min ≤ ts) (hts2 : ts ≤ i64Max) (hn1 : i64Min ≤ now)
    (h : ts > now + 30) :
    verifyHeader n ts now ln = .error .TimestampTooNew := by
  unfold verifyHeader
  have hc1 : ¬ ts < i64SatSub now MAX_TIMESTAMP_DRIFT_SECONDS := by
    unfold i64SatSub MAX_TIMESTAMP_DRIFT_SECONDS i64Min i64Max at *
    split_ifs <;> omega
  have hc2 : ts > i64SatAdd now MAX_TIMESTAMP_DRIFT_SECONDS := by
    unfold i64SatAdd MAX_TIMESTAMP_DRIFT_SECONDS i64Min i64Max at *
    split_ifs <;> omega
  rw [if_neg hc1, if_pos hc2]

theorem verifyHeader_nonce_mismatch {n : Nat} {ts now : Int} {ln : Nat}
    (h1 : ¬ ts < i64SatSub now MAX_TIMESTAMP_DRIFT_SECONDS)
    (h2 : ¬ ts > i64SatAdd now MAX_TIMESTAMP_DRIFT_SECONDS) (h3 : n ≠ ln) :
    verifyHeader n ts now ln = .error .NonceMismatch := by
  unfold verifyHeader
  rw [if_neg h1, if_neg h2, if_neg h3]

theorem wsFlatten_flip_ne (accs : List AccountInfo) (i : Nat) (h : i < accs.length) :
    ((flipWritableAt accs i).map accountMetaBytesWS).flatten ≠
      (accs.map accountMetaBytesWS).flatten := by
  induction accs generalizing i with
  | nil => simp at h
  | cons a rest ih =>
    cases i with
    | zero => cases hw : a.is_writable <;> simp_all [flipWritableAt, accountMetaBytesWS]
    | succ i =>
      have hne := ih i (by simpa using h)
      simp_all [flipWritableAt, accountMetaBytesWS]

theorem accountsStreamWS_flip_ne (prog : Pubkey) (accs : List AccountInfo) (i : Nat)
    (h : i < accs.length) :
    accountsStreamWS prog (flipWritableAt accs i) ≠ accountsStreamWS prog accs := by
  unfold accountsStreamWS
  simpa using wsFlatten_flip_ne accs i h

theorem accountsStreamS_flip (prog : Pubkey) (accs : List AccountInfo) (i : Nat) :
    accountsStreamS prog (flipWritableAt accs i) = accountsStreamS prog accs := by
  unfold accountsStreamS
  congr 1
  induction accs generalizing i with
  | nil => rfl
  | cons a rest ih =>
    cases i with
    | zero => simp [flipWritableAt, accountMetaBytesS]
    | succ i => simp [flipWritableAt, accountMetaBytesS, ih]

theorem verify_secp_header_iff {data : Bytes} {o : SecpOffsets} :
    verify_secp_header data o = true ↔
      (data.getD 0 0 = 1 ∧ u16LE (data.drop 2) = o.sig_offset ∧
       u16LE (data.drop 4) = 65535 ∧ u16LE (data.drop 6) = o.pubkey_offset ∧
       u16LE (data.drop 8) = 65535 ∧ u16LE (data.drop 10) = o.msg_offset ∧
       u16LE (data.drop 12) = o.msg_len ∧ u16LE (data.drop 14) = 65535) := by
  simp [verify_secp_header, Bool.and_eq_true, beq_iff_eq, and_assoc]

theorem verify_secp_data_iff {data pubkey sig msg : Bytes} :
    verify_secp_data data pubkey sig msg = true ↔
      (sliceRange data 16 49 = pubkey ∧ sliceRange data 49 113 = sig ∧
       data.drop 113 = msg) := by
  simp [verify_secp_data, Bool.and_eq_true, beq_iff_eq, and_assoc,
    SECP_HEADER_TOTAL, SECP_PUBKEY_SIZE, SECP_SIGNATURE_SIZE]

theorem verify_secp256r1_instruction_iff (ix : Instruction) (pubkey msg sig : Bytes)
    (hlen : msg.length < 65536) :
    verify_secp256r1_instruction ix pubkey msg sig = .ok () ↔
      (ix.program_id = secp256r1ID ∧ ix.accounts = [] ∧
       ix.data.length = 16 + 33 + 64 + msg.length ∧
       ix.data.getD 0 0 = 1 ∧
       u16LE (ix.data.drop 2) = 49 ∧ u16LE (ix.data.drop 4) = 65535 ∧
       u16LE (ix.data.drop 6) = 16 ∧ u16LE (ix.data.drop 8) = 65535 ∧
       u16LE (ix.data.drop 10) = 113 ∧ u16LE (ix.data.drop 12) = msg.length ∧
       u16LE (ix.data.drop 14) = 65535 ∧
       sliceRange ix.data 16 49 = pubkey ∧ sliceRange ix.data 49 113 = sig ∧
       ix.data.drop 113 = msg) := by
  have hmod : msg.length % u16Mod = msg.length := Nat.mod_eq_of_lt hlen
  unfold verify_secp256r1_instruction verify_secp256r1_data calculate_secp_offsets
  unfold SECP_DATA_START SECP_PUBKEY_SIZE SECP_SIGNATURE_SIZE
  simp only [ite_error_eq_ok]
  constructor
  · rintro ⟨h1, h2, h3, -⟩
    push_neg at h1
    obtain ⟨hprog, hacc, hdlen⟩ := h1
    rw [not_not] at h2 h3
    rw [verify_secp_header_iff] at h2
    rw [verify_secp_data_iff] at h3
    obtain ⟨hh0, hh2, hh4, hh6, hh8, hh10, hh12, hh14⟩ := h2
    obtain ⟨hs1, hs2, hs3⟩ := h3
    exact ⟨hprog, by simpa [List.isEmpty_iff] using hacc, hdlen, hh0, hh2, hh4, hh6,
      hh8, hh10, by rwa [hmod] at hh12, hh14, hs1, hs2, hs3⟩
  · rintro ⟨hprog, hacc, hdlen, hh0, hh2, hh4, hh6, hh8, hh10, hh12, hh14, hs1, hs2, hs3⟩
    refine ⟨?_, ?_, ?_, trivial⟩
    · push_neg
      exact ⟨hprog, by simp [hacc], hdlen⟩
    · rw [not_not, verify_secp_header_iff]
      exact ⟨hh0, hh2, hh4, hh6, hh8, hh10, by rwa [hmod], hh14⟩
    · rw [not_not, verify_secp_data_iff]
      exact ⟨hs1, hs2, hs3⟩

/-! # Concrete runs

Full evaluations of the handlers on the vectors above, checked by the kernel.
-/

set_option maxRecDepth 10000 in
/-- The `resT` run goes through: rule CPI, then a native transfer of 5. -/
theorem run_execute_txn_T : execute_txn_direct envT ctxT argsT = .ok resT := by rfl

set_option maxRecDepth 10000 in
/-- The zero-amount variant goes through with no transfer effect. -/
theorem run_execute_txn_Z : execute_txn_direct envZ ctxT argsZ = .ok resZ := by rfl

set_option maxRecDepth 10000 in
/-- The stale, nonce-mismatched challenge is rejected with the timestamp
error, not the nonce error. -/
theorem run_execute_txn_N :
    execute_txn_direct envN ctxT argsT = .error .TimestampTooOld := by rfl

set_option maxRecDepth 10000 in
/-- A successful `call_rule_direct` run. -/
theorem run_call_rule_R : call_rule_direct envR ctxR argsR = .ok resR := by rfl

set_option maxRecDepth 10000 in
/-- A successful `commit_cpi` run. -/
theorem run_commit_K : commit_cpi envK ctxK argsK = .ok resK := by rfl

set_option maxRecDepth 10000 in
/-- A successful `change_rule_direct` run on the writable-flipped rule
account: the signer-only accounts hash does not see the flip. -/
theorem run_change_rule_C : change_rule_direct envC ctxC argsC = .ok resC := by rfl

set_option maxRecDepth 10000 in
/-- A successful `execute_committed` redemption, with the wallet record's
nonce bumped from 5 to 6. -/
theorem run_committed_E5 :
    executeCommittedInstruction envE ctxE5 cpiDataT = .ok resE5 := by rfl

set_option maxRecDepth 10000 in
/-- The same redemption with `is_paused` set: the handler never reads the
flag. -/
theorem run_committed_E6 :
    executeCommittedInstruction envE ctxE6 cpiData7 = .ok resE6 := by rfl

set_option maxRecDepth 10000 in
/-- An expired commit redeems as a no-op: no effects but the record close. -/
theorem run_committed_Exp :
    executeCommittedInstruction envE ctxExp [] =
      .ok ⟨[.closeAccount commitKeyA destKeyA], cfgA⟩ := by rfl

/-! # Claim theorems -/

theorem executeMessageVerify_parsed {cb : Bytes} {now : Int} {ln : Nat}
    {m : ExecuteMessage} {rest : Bytes}
    (hp : deserializeExecuteMessage cb = some (m, rest)) :
    executeMessageVerify cb now ln =
      verifyHeader m.nonce m.current_timestamp now ln := by
  unfold executeMessageVerify
  rw [hp]

theorem callRuleMessageVerify_parsed {cb : Bytes} {now : Int} {ln : Nat}
    {m : CallRuleMessage} {rest : Bytes}
    (hp : deserializeCallRuleMessage cb = some (m, rest)) :
    callRuleMessageVerify cb now ln =
      verifyHeader m.nonce m.current_timestamp now ln := by
  unfold callRuleMessageVerify
  rw [hp]

theorem changeRuleMessageVerify_parsed {cb : Bytes} {now : Int} {ln : Nat}
    {m : ChangeRuleMessage} {rest : Bytes}
    (hp : deserializeChangeRuleMessage cb = some (m, rest)) :
    changeRuleMessageVerify cb now ln =
      verifyHeader m.nonce m.current_timestamp now ln := by
  unfold changeRuleMessageVerify
  rw [hp]

theorem execute_txn_ok_nonce_eq {env : Env} {ctx : ExecuteTxnAccounts}
    {args : ExecuteTxnArgs} {r : HandlerOk} {cb : Bytes} {m : ExecuteMessage}
    {rest : Bytes} (h : execute_txn_direct env ctx args = .ok r)
    (hcb : env.decodeChallenge args.client_data_json_raw = .ok cb)
    (hp : deserializeExecuteMessage cb = some (m, rest)) :
    m.nonce = ctx.smart_wallet_config.last_nonce := by
  obtain ⟨m', cb', rest', _, _, hcb', hp', hver, -⟩ := execute_txn_direct_ok_facts h
  rw [hcb] at hcb'
  cases hcb'
  rw [hp] at hp'
  simp only [Option.some.injEq, Prod.mk.injEq] at hp'
  obtain ⟨hm, -⟩ := hp'
  subst hm
  rw [executeMessageVerify_parsed hp] at hver
  exact (verifyHeader_ok_facts hver).1

theorem call_rule_ok_nonce_eq {env : Env} {ctx : CallRuleAccounts}
    {args : CallRuleArgs} {r : HandlerOk} {cb : Bytes} {m : CallRuleMessage}
    {rest : Bytes} (h : call_rule_direct env ctx args = .ok r)
    (hcb : env.decodeChallenge args.client_data_json_raw = .ok cb)
    (hp : deserializeCallRuleMessage cb = some (m, rest)) :
    m.nonce = ctx.smart_wallet_config.last_nonce := by
  obtain ⟨m', cb', rest', _, _, hcb', hp', hver, -⟩ := call_rule_direct_ok_facts h
  rw [hcb] at hcb'
  cases hcb'
  rw [hp] at hp'
  simp only [Option.some.injEq, Prod.mk.injEq] at hp'
  obtain ⟨hm, -⟩ := hp'
  subst hm
  rw [callRuleMessageVerify_parsed hp] at hver
  exact (verifyHeader_ok_facts hver).1

theorem change_rule_ok_nonce_eq {env : Env} {ctx : ChangeRuleAccounts}
    {args : ChangeRuleArgs} {r : HandlerOk} {cb : Bytes} {m : ChangeRuleMessage}
    {rest : Bytes} (h : change_rule_direct env ctx args = .ok r)
    (hcb : env.decodeChallenge args.client_data_json_raw = .ok cb)
    (hp : deserializeChangeRuleMessage cb = some (m, rest)) :
    m.nonce = ctx.smart_wallet_config.last_nonce := by
  obtain ⟨m', cb', rest', _, _, _, hcb', hp', hver, -⟩ := change_rule_direct_ok_facts h
  rw [hcb] at hcb'
  cases hcb'
  rw [hp] at hp'
  simp only [Option.some.injEq, Prod.mk.injEq] at hp'
  obtain ⟨hm, -⟩ := hp'
  subst hm
  rw [changeRuleMessageVerify_parsed hp] at hver
  exact (verifyHeader_ok_facts hver).1

theorem commit_ok_nonce_eq {env : Env} {ctx : CommitAccounts}
    {args : CommitArgs} {r : CommitOk} {cb : Bytes} {m : ExecuteMessage}
    {rest : Bytes} (h : commit_cpi env ctx args = .ok r)
    (hcb : env.decodeChallenge args.client_data_json_raw = .ok cb)
    (hp : deserializeExecuteMessage cb = some (m, rest)) :
    m.nonce = ctx.smart_wallet_config.last_nonce := by
  obtain ⟨m', cb', rest', _, hcb', hp', hver, -⟩ := commit_cpi_ok_facts h
  rw [hcb] at hcb'
  cases hcb'
  rw [hp] at hp'
  simp only [Option.some.injEq, Prod.mk.injEq] at hp'
  obtain ⟨hm, -⟩ := hp'
  subst hm
  rw [executeMessageVerify_parsed hp] at hver
  exact (verifyHeader_ok_facts hver).1

/-- C1 (amended). Accounts-hash binding per handler. -/
theorem c1_accounts_hash_binding :
    (∀ (env : Env) (ctx : ExecuteTxnAccounts) (args : ExecuteTxnArgs) (r : HandlerOk)
       (cb : Bytes) (m : ExecuteMessage) (rest : Bytes),
       execute_txn_direct env ctx args = .ok r →
       env.decodeChallenge args.client_data_json_raw = .ok cb →
       deserializeExecuteMessage cb = some (m, rest) →
       Sha256.sha256 (accountsStreamWS ctx.authenticator_program.key
         (ctx.remaining_accounts.take args.split_index)) = m.rule_accounts_hash ∧
       Sha256.sha256 (accountsStreamWS ctx.cpi_program.key
         (ctx.remaining_accounts.drop args.split_index)) = m.cpi_accounts_hash) ∧
    (∀ (env : Env) (ctx : CommitAccounts) (args : CommitArgs) (r : CommitOk)
       (cb : Bytes) (m : ExecuteMessage) (rest : Bytes),
       commit_cpi env ctx args = .ok r →
       env.decodeChallenge args.client_data_json_raw = .ok cb →
       deserializeExecuteMessage cb = some (m, rest) →
       Sha256.sha256 (accountsStreamWS ctx.authenticator_program.key
         ctx.remaining_accounts) = m.rule_accounts_hash) ∧
    (∀ (env : Env) (ctx : ChangeRuleAccounts) (args : ChangeRuleArgs) (r : HandlerOk)
       (cb : Bytes) (m : ChangeRuleMessage) (rest : Bytes),
       change_rule_direct env ctx args = .ok r →
       env.decodeChallenge args.client_data_json_raw = .ok cb →
       deserializeChangeRuleMessage cb = some (m, rest) →
       Sha256.sha256 (accountsStreamS ctx.old_rule_program.key
         (ctx.remaining_accounts.take args.split_index)) = m.old_rule_accounts_hash ∧
       Sha256.sha256 (accountsStreamS ctx.new_rule_program.key
         (ctx.remaining_accounts.drop args.split_index)) = m.new_rule_accounts_hash) ∧
    (∀ s e : Bytes, (accountsHashGuard s e = .ok () ↔ Sha256.sha256 s = e) ∧
       (Sha256.sha256 s ≠ e → accountsHashGuard s e = .error .InvalidAccountData)) ∧
    (∀ (prog : Pubkey) (accs : List AccountInfo) (i : Nat), i < accs.length →
       accountsStreamWS prog (flipWritableAt accs i) ≠ accountsStreamWS prog accs) ∧
    (∀ (prog : Pubkey) (accs : List AccountInfo) (i : Nat),
       accountsStreamS prog (flipWritableAt accs i) = accountsStreamS prog accs) := by
  refine ⟨?_, ?_, ?_, ?_, ?_, ?_⟩
  · intro env ctx args r cb m rest h hcb hp
    obtain ⟨m', cb', rest', _, _, hcb', hp', _, _, hrah, _, hcah, -⟩ :=
      execute_txn_direct_ok_facts h
    rw [hcb] at hcb'
    cases hcb'
    rw [hp] at hp'
    simp only [Option.some.injEq, Prod.mk.injEq] at hp'
    obtain ⟨hm, -⟩ := hp'
    subst hm
    exact ⟨hrah, hcah⟩
  · intro env ctx args r cb m rest h hcb hp
    obtain ⟨m', cb', rest', _, hcb', hp', _, _, hrah, -⟩ := commit_cpi_ok_facts h
    rw [hcb] at hcb'
    cases hcb'
    rw [hp] at hp'
    simp only [Option.some.injEq, Prod.mk.injEq] at hp'
    obtain ⟨hm, -⟩ := hp'
    subst hm
    exact hrah
  · intro env ctx args r cb m rest h hcb hp
    obtain ⟨m', cb', rest', _, _, _, hcb', hp', _, _, _, _, _, _, hoah, hnah, -⟩ :=
      change_rule_direct_ok_facts h
    rw [hcb] at hcb'
    cases hcb'
    rw [hp] at hp'
    simp only [Option.some.injEq, Prod.mk.injEq] at hp'
    obtain ⟨hm, -⟩ := hp'
    subst hm
    exact ⟨hoah, hnah⟩
  · intro s e
    constructor
    · exact accountsHashGuard_eq_ok
    · intro hne
      unfold accountsHashGuard
      rw [if_neg hne]
  · exact accountsStreamWS_flip_ne
  · exact accountsStreamS_flip

set_option maxRecDepth 10000 in
theorem c1_accounts_hash_binding_witness :
    (execute_txn_direct envT ctxT argsT = .ok resT ∧
     Sha256.sha256 (accountsStreamWS ctxT.authenticator_program.key
       (ctxT.remaining_accounts.take argsT.split_index)) = msgT.rule_accounts_hash ∧
     Sha256.sha256 (accountsStreamWS ctxT.cpi_program.key
       (ctxT.remaining_accounts.drop argsT.split_index)) = msgT.cpi_accounts_hash) ∧
    (commit_cpi envK ctxK argsK = .ok resK ∧
     Sha256.sha256 (accountsStreamWS ctxK.authenticator_program.key
       ctxK.remaining_accounts) = msgK.rule_accounts_hash) ∧
    (change_rule_direct envC ctxC argsC = .ok resC ∧
     Sha256.sha256 (accountsStreamS ctxC.old_rule_program.key
       (ctxC.remaining_accounts.take argsC.split_index)) = msgC.old_rule_accounts_hash) ∧
    (Sha256.sha256 [] ≠ z32 ∧ accountsHashGuard [] z32 = .error .InvalidAccountData) ∧
    (0 < [ruleAcctA].length ∧
     accountsStreamWS progKeyA (flipWritableAt [ruleAcctA] 0) ≠
       accountsStreamWS progKeyA [ruleAcctA]) ∧
    accountsStreamS progKeyA (flipWritableAt [ruleAcctA] 0) =
      accountsStreamS progKeyA [ruleAcctA] := by
  have hne : Sha256.sha256 [] ≠ z32 := by decide
  refine ⟨⟨run_execute_txn_T, ?_⟩, ⟨run_commit_K, ?_⟩, ⟨run_change_rule_C, ?_⟩,
    ⟨hne, (c1_accounts_hash_binding.2.2.2.1 [] z32).2 hne⟩,
    ⟨by decide, c1_accounts_hash_binding.2.2.2.2.1 progKeyA [ruleAcctA] 0 (by decide)⟩,
    c1_accounts_hash_binding.2.2.2.2.2 progKeyA [ruleAcctA] 0⟩
  · exact c1_accounts_hash_binding.1 envT ctxT argsT resT cbT msgT []
      run_execute_txn_T rfl (by rfl)
  · exact (c1_accounts_hash_binding.2.1 envK ctxK argsK resK cbK msgK []
      run_commit_K rfl (by rfl))
  · exact (c1_accounts_hash_binding.2.2.1 envC ctxC argsC resC cbC msgC []
      run_change_rule_C rfl (by rfl)).1

set_option maxRecDepth 10000 in
theorem c1_counterexample :
    ruleAcctFlipped = { ruleAcctA with is_writable := true } ∧
    ruleAcctA.is_writable = false ∧
    ctxC.remaining_accounts = [ruleAcctFlipped, initAcctA] ∧
    msgC.old_rule_accounts_hash = Sha256.sha256 (accountsStreamS progKeyA [ruleAcctA]) ∧
    change_rule_direct envC ctxC argsC = .ok resC :=
  ⟨rfl, rfl, rfl, by decide, run_change_rule_C⟩


/-- C2 (amended). Nonce discipline of the passkey-authorized handlers. -/
theorem c2_nonce_monotonic :
    (∀ (env : Env) (ctx : ExecuteTxnAccounts) (args : ExecuteTxnArgs) (r : HandlerOk)
       (cb : Bytes) (m : ExecuteMessage) (rest : Bytes),
       env.decodeChallenge args.client_data_json_raw = .ok cb →
       deserializeExecuteMessage cb = some (m, rest) →
       m.nonce ≠ ctx.smart_wallet_config.last_nonce →
       execute_txn_direct env ctx args ≠ .ok r) ∧
    (∀ (env : Env) (ctx : CallRuleAccounts) (args : CallRuleArgs) (r : HandlerOk)
       (cb : Bytes) (m : CallRuleMessage) (rest : Bytes),
       env.decodeChallenge args.client_data_json_raw = .ok cb →
       deserializeCallRuleMessage cb = some (m, rest) →
       m.nonce ≠ ctx.smart_wallet_config.last_nonce →
       call_rule_direct env ctx args ≠ .ok r) ∧
    (∀ (env : Env) (ctx : ChangeRuleAccounts) (args : ChangeRuleArgs) (r : HandlerOk)
       (cb : Bytes) (m : ChangeRuleMessage) (rest : Bytes),
       env.decodeChallenge args.client_data_json_raw = .ok cb →
       deserializeChangeRuleMessage cb = some (m, rest) →
       m.nonce ≠ ctx.smart_wallet_config.last_nonce →
       change_rule_direct env ctx args ≠ .ok r) ∧
    (∀ (env : Env) (ctx : CommitAccounts) (args : CommitArgs) (r : CommitOk)
       (cb : Bytes) (m : ExecuteMessage) (rest : Bytes),
       env.decodeChallenge args.client_data_json_raw = .ok cb →
       deserializeExecuteMessage cb = some (m, rest) →
       m.nonce ≠ ctx.smart_wallet_config.last_nonce →
       commit_cpi env ctx args ≠ .ok r) ∧
    (∀ (n : Nat) (ts now : Int) (ln : Nat),
       ¬ ts < i64SatSub now MAX_TIMESTAMP_DRIFT_SECONDS →
       ¬ ts > i64SatAdd now MAX_TIMESTAMP_DRIFT_SECONDS → n ≠ ln →
       verifyHeader n ts now ln = .error .NonceMismatch) ∧
    ((∀ (env : Env) (ctx : ExecuteTxnAccounts) (args : ExecuteTxnArgs) (r : HandlerOk),
        execute_txn_direct env ctx args = .ok r →
        r.smart_wallet_config.last_nonce = ctx.smart_wallet_config.last_nonce + 1) ∧
     (∀ (env : Env) (ctx : CallRuleAccounts) (args : CallRuleArgs) (r : HandlerOk),
        call_rule_direct env ctx args = .ok r →
        r.smart_wallet_config.last_nonce = ctx.smart_wallet_config.last_nonce + 1) ∧
     (∀ (env : Env) (ctx : ChangeRuleAccounts) (args : ChangeRuleArgs) (r : HandlerOk),
        change_rule_direct env ctx args = .ok r →
        r.smart_wallet_config.last_nonce = ctx.smart_wallet_config.last_nonce + 1) ∧
     (∀ (env : Env) (ctx : CommitAccounts) (args : CommitArgs) (r : CommitOk),
        commit_cpi env ctx args = .ok r →
        r.smart_wallet_config.last_nonce = ctx.smart_wallet_config.last_nonce + 1 ∧
        r.cpi_commit.authorized_nonce = ctx.smart_wallet_config.last_nonce)) ∧
    (∀ cfg : SmartWalletConfig, cfg.last_nonce = u64Max →
       bumpNonce cfg = .error .NonceOverflow) ∧
    (∀ (env1 : Env) (ctx1 : ExecuteTxnAccounts) (args1 : ExecuteTxnArgs) (r1 : HandlerOk)
       (env2 : Env) (ctx2 : ExecuteTxnAccounts) (args2 : ExecuteTxnArgs) (r2 : HandlerOk)
       (cb1 : Bytes) (m1 : ExecuteMessage) (rest1 : Bytes)
       (cb2 : Bytes) (m2 : ExecuteMessage) (rest2 : Bytes),
       execute_txn_direct env1 ctx1 args1 = .ok r1 →
       ctx2.smart_wallet_config = r1.smart_wallet_config →
       env1.decodeChallenge args1.client_data_json_raw = .ok cb1 →
       deserializeExecuteMessage cb1 = some (m1, rest1) →
       env2.decodeChallenge args2.client_data_json_raw = .ok cb2 →
       deserializeExecuteMessage cb2 = some (m2, rest2) →
       m2.nonce = m1.nonce →
       execute_txn_direct env2 ctx2 args2 ≠ .ok r2) := by
  refine ⟨?_, ?_, ?_, ?_, ?_, ⟨?_, ?_, ?_, ?_⟩, ?_, ?_⟩
  · intro env ctx args r cb m rest hcb hp hne h
    exact hne (execute_txn_ok_nonce_eq h hcb hp)
  · intro env ctx args r cb m rest hcb hp hne h
    exact hne (call_rule_ok_nonce_eq h hcb hp)
  · intro env ctx args r cb m rest hcb hp hne h
    exact hne (change_rule_ok_nonce_eq h hcb hp)
  · intro env ctx args r cb m rest hcb hp hne h
    exact hne (commit_ok_nonce_eq h hcb hp)
  · intro n ts now ln h1 h2 h3
    exact verifyHeader_nonce_mismatch h1 h2 h3
  · intro env ctx args r h
    obtain ⟨m, cb, rest, ruleEff, mainEff, -, -, -, -, -, -, -, -, -, -, -, hr⟩ :=
      execute_txn_direct_ok_facts h
    subst hr
    rfl
  · intro env ctx args r h
    obtain ⟨m, cb, rest, authEff, ruleEff, -, -, -, -, -, -, -, hr⟩ :=
      call_rule_direct_ok_facts h
    subst hr
    rfl
  · intro env ctx args r h
    obtain ⟨m, cb, rest, authEff, dEff, iEff, -, -, -, -, -, -, -, -, -, -, -, -, -,
      -, -, -, -, hr⟩ := change_rule_direct_ok_facts h
    subst hr
    rfl
  · intro env ctx args r h
    obtain ⟨m, cb, rest, ruleEff, -, -, -, -, -, -, -, hr⟩ := commit_cpi_ok_facts h
    subst hr
    exact ⟨rfl, rfl⟩
  · intro cfg hln
    unfold bumpNonce checkedAddU64
    rw [hln]
    have hlt : ¬ (u64Max + 1 ≤ u64Max) := by omega
    rw [if_neg hlt]
    rfl
  · intro env1 ctx1 args1 r1 env2 ctx2 args2 r2 cb1 m1 rest1 cb2 m2 rest2
      h1 hcfg hcb1 hp1 hcb2 hp2 hnn h2
    have e1 : m1.nonce = ctx1.smart_wallet_config.last_nonce :=
      execute_txn_ok_nonce_eq h1 hcb1 hp1
    have e2 : m2.nonce = ctx2.smart_wallet_config.last_nonce :=
      execute_txn_ok_nonce_eq h2 hcb2 hp2
    obtain ⟨m', cb', rest', ruleEff, mainEff, -, -, -, -, -, -, -, -, -, -, -, hr1⟩ :=
      execute_txn_direct_ok_facts h1
    rw [hcfg, hr1] at e2
    simp only at e2
    omega

set_option maxRecDepth 10000 in
theorem c2_nonce_monotonic_witness :
    (execute_txn_direct envN ctxT argsT ≠ .ok resT) ∧
    (call_rule_direct envRN ctxR argsR ≠ .ok resR) ∧
    (change_rule_direct envCN ctxC argsC ≠ .ok resC) ∧
    (commit_cpi envN ctxK argsK ≠ .ok resK) ∧
    verifyHeader 6 1000 1000 5 = .error .NonceMismatch ∧
    resT.smart_wallet_config.last_nonce = ctxT.smart_wallet_config.last_nonce + 1 ∧
    resR.smart_wallet_config.last_nonce = ctxR.smart_wallet_config.last_nonce + 1 ∧
    resC.smart_wallet_config.last_nonce = ctxC.smart_wallet_config.last_nonce + 1 ∧
    (resK.smart_wallet_config.last_nonce = ctxK.smart_wallet_config.last_nonce + 1 ∧
     resK.cpi_commit.authorized_nonce = ctxK.smart_wallet_config.last_nonce) ∧
    bumpNonce ⟨0, [], u64Max, 0⟩ = .error .NonceOverflow ∧
    execute_txn_direct envT ctxT2 argsT ≠ .ok resT := by
  refine ⟨?_, ?_, ?_, ?_, ?_, ?_, ?_, ?_, ?_, ?_, ?_⟩
  · exact c2_nonce_monotonic.1 envN ctxT argsT resT cbN msgN [] rfl (by rfl) (by decide)
  · exact c2_nonce_monotonic.2.1 envRN ctxR argsR resR cbRN msgRN [] rfl (by rfl)
      (by decide)
  · exact c2_nonce_monotonic.2.2.1 envCN ctxC argsC resC cbCN msgCN [] rfl (by rfl)
      (by decide)
  · exact c2_nonce_monotonic.2.2.2.1 envN ctxK argsK resK cbN msgN [] rfl (by rfl)
      (by decide)
  · exact c2_nonce_monotonic.2.2.2.2.1 6 1000 1000 5 (by decide) (by decide) (by decide)
  · exact c2_nonce_monotonic.2.2.2.2.2.1.1 envT ctxT argsT resT run_execute_txn_T
  · exact c2_nonce_monotonic.2.2.2.2.2.1.2.1 envR ctxR argsR resR run_call_rule_R
  · exact c2_nonce_monotonic.2.2.2.2.2.1.2.2.1 envC ctxC argsC resC run_change_rule_C
  · exact c2_nonce_monotonic.2.2.2.2.2.1.2.2.2 envK ctxK argsK resK run_commit_K
  · exact c2_nonce_monotonic.2.2.2.2.2.2.1 ⟨0, [], u64Max, 0⟩ rfl
  · exact c2_nonce_monotonic.2.2.2.2.2.2.2 envT ctxT argsT resT envT ctxT2 argsT
      resT cbT msgT [] cbT msgT [] run_execute_txn_T rfl rfl (by rfl) rfl (by rfl) rfl

set_option maxRecDepth 10000 in
theorem c2_counterexample :
    envN.decodeChallenge argsT.client_data_json_raw = .ok cbN ∧
    deserializeExecuteMessage cbN = some (msgN, []) ∧
    msgN.nonce = 6 ∧ ctxT.smart_wallet_config.last_nonce = 5 ∧
    execute_txn_direct envN ctxT argsT = .error .TimestampTooOld ∧
    execute_txn_direct envN ctxT argsT ≠ .error .NonceMismatch := by
  refine ⟨rfl, by rfl, rfl, rfl, run_execute_txn_N, ?_⟩
  rw [run_execute_txn_N]
  simp


/-- C8 (amended). Native-transfer branch conditions. -/
theorem c8_native_transfer_amended :
    (∀ (env : Env) (ctx : ExecuteTxnAccounts) (args : ExecuteTxnArgs) (r : HandlerOk),
       execute_txn_direct env ctx args = .ok r →
       4 ≤ args.cpi_data.length → args.cpi_data.take 4 = SOL_TRANSFER_DISCRIMINATOR →
       ctx.cpi_program.key = systemProgramID →
       leNat ((args.cpi_data.drop 4).take 8) ≤ u64Max / 2 ∧
       ((ctx.remaining_accounts.drop args.split_index).getD 1 dummyAccountInfo).key ≠
         ctx.smart_wallet.key ∧
       leNat ((args.cpi_data.drop 4).take 8) + ctx.config.execute_fee + env.rentExemptMin ≤
         ctx.smart_wallet.lamports ∧
       ∃ ruleEff, r.effects = ruleEff ++
         (if leNat ((args.cpi_data.drop 4).take 8) = 0 then [] else
          [Effect.transfer ctx.smart_wallet.key
            ((ctx.remaining_accounts.drop args.split_index).getD 1 dummyAccountInfo).key
            (leNat ((args.cpi_data.drop 4).take 8))])) ∧
    (∀ (env : Env) (sw prog : AccountInfo) (accs : List AccountInfo) (data : Bytes)
       (fee : Nat) (r : List Effect),
       4 ≤ data.length → data.take 4 = SOL_TRANSFER_DISCRIMINATOR →
       prog.key = systemProgramID →
       (accs.getD 1 dummyAccountInfo).key = sw.key →
       nativeTransferOrCpi env sw prog accs data fee ≠ .ok r) ∧
    (∀ (env : Env) (sw prog : AccountInfo) (accs : List AccountInfo) (data : Bytes)
       (fee : Nat) (r : List Effect),
       4 ≤ data.length → data.take 4 = SOL_TRANSFER_DISCRIMINATOR →
       prog.key = systemProgramID →
       u64Max / 2 < leNat ((data.drop 4).take 8) →
       nativeTransferOrCpi env sw prog accs data fee ≠ .ok r) ∧
    (∀ (env : Env) (sw prog : AccountInfo) (accs : List AccountInfo) (data : Bytes)
       (fee : Nat) (r : List Effect),
       4 ≤ data.length → data.take 4 = SOL_TRANSFER_DISCRIMINATOR →
       prog.key = systemProgramID →
       sw.lamports < leNat ((data.drop 4).take 8) + fee + env.rentExemptMin →
       nativeTransferOrCpi env sw prog accs data fee ≠ .ok r) := by
  refine ⟨?_, ?_, ?_, ?_⟩
  · intro env ctx args r h h4 hdisc hsys
    obtain ⟨m, cb, rest, ruleEff, mainEff, -, -, -, -, -, -, -, hmain, -, -, -, hr⟩ :=
      execute_txn_direct_ok_facts h
    obtain ⟨-, -, hbound, hdest, hbal, heff⟩ :=
      nativeTransferOrCpi_native_ok ⟨h4, hdisc, hsys⟩ hmain
    subst hr
    subst heff
    exact ⟨hbound, hdest, hbal, ruleEff, rfl⟩
  · intro env sw prog accs data fee r h4 hdisc hsys hdest h
    obtain ⟨-, -, -, hne, -⟩ := nativeTransferOrCpi_native_ok ⟨h4, hdisc, hsys⟩ h
    exact hne hdest
  · intro env sw prog accs data fee r h4 hdisc hsys hbig h
    obtain ⟨-, -, hbound, -⟩ := nativeTransferOrCpi_native_ok ⟨h4, hdisc, hsys⟩ h
    omega
  · intro env sw prog accs data fee r h4 hdisc hsys hlow h
    obtain ⟨-, -, -, -, hbal, -⟩ := nativeTransferOrCpi_native_ok ⟨h4, hdisc, hsys⟩ h
    omega

set_option maxRecDepth 10000 in
theorem c8_native_transfer_amended_witness :
    (leNat ((argsT.cpi_data.drop 4).take 8) ≤ u64Max / 2 ∧
     ((ctxT.remaining_accounts.drop argsT.split_index).getD 1 dummyAccountInfo).key ≠
       ctxT.smart_wallet.key ∧
     leNat ((argsT.cpi_data.drop 4).take 8) + ctxT.config.execute_fee +
       envT.rentExemptMin ≤ ctxT.smart_wallet.lamports ∧
     ∃ ruleEff, resT.effects = ruleEff ++
       (if leNat ((argsT.cpi_data.drop 4).take 8) = 0 then [] else
        [Effect.transfer ctxT.smart_wallet.key
          ((ctxT.remaining_accounts.drop argsT.split_index).getD 1 dummyAccountInfo).key
          (leNat ((argsT.cpi_data.drop 4).take 8))])) ∧
    nativeTransferOrCpi envE walletAcctA sysProgAcct [walletAcctA, walletAcctA]
      cpiDataT 0 ≠ .ok [] ∧
    nativeTransferOrCpi envE walletAcctA sysProgAcct [walletAcctA, destAcctA]
      cpiDataBig 0 ≠ .ok [] ∧
    nativeTransferOrCpi envE destAcctA sysProgAcct [walletAcctA, destAcctA]
      cpiDataT 100 ≠ .ok [] := by
  refine ⟨?_, ?_, ?_, ?_⟩
  · exact c8_native_transfer_amended.1 envT ctxT argsT resT run_execute_txn_T
      (by decide) (by decide) rfl
  · exact c8_native_transfer_amended.2.1 envE walletAcctA sysProgAcct
      [walletAcctA, walletAcctA] cpiDataT 0 [] (by decide) (by decide) rfl (by decide)
  · exact c8_native_transfer_amended.2.2.1 envE walletAcctA sysProgAcct
      [walletAcctA, destAcctA] cpiDataBig 0 [] (by decide) (by decide) rfl (by decide)
  · exact c8_native_transfer_amended.2.2.2 envE destAcctA sysProgAcct
      [walletAcctA, destAcctA] cpiDataT 100 [] (by decide) (by decide) rfl (by decide)

set_option maxRecDepth 10000 in
theorem c8_counterexample :
    argsZ.cpi_data = cpiData0 ∧
    leNat ((cpiData0.drop 4).take 8) = 0 ∧
    cpiData0.take 4 = SOL_TRANSFER_DISCRIMINATOR ∧
    ctxT.cpi_program.key = systemProgramID ∧
    execute_txn_direct envZ ctxT argsZ = .ok resZ ∧
    resZ.effects = [Effect.cpi progKeyA ruleDataA [ruleAcctA]] :=
  ⟨rfl, by decide, by decide, rfl, run_execute_txn_Z, rfl⟩

/-- C4. In `execute_committed`, an expired record, a wallet mismatch, or a
data/accounts hash mismatch yields a successful no-op whose only effect is the
Anchor close of the commit record, refunding rent to the stored
`rent_refund_to`; and every `Ok` execution, no-op or redemption, ends with
that close effect. -/
theorem c4_graceful_noop :
    (∀ (env : Env) (ctx : ExecuteCommittedAccounts) (d : Bytes),
       (ctx.cpi_commit.expires_at < env.now ∨
        ctx.cpi_commit.owner_wallet ≠ ctx.smart_wallet.key ∨
        Sha256.sha256 d ≠ ctx.cpi_commit.data_hash ∨
        Sha256.sha256 (accountsStreamS ctx.cpi_program.key ctx.remaining_accounts) ≠
          ctx.cpi_commit.accounts_hash) →
       executeCommittedInstruction env ctx d =
         .ok ⟨[.closeAccount ctx.cpi_commit_key ctx.cpi_commit.rent_refund_to],
           ctx.smart_wallet_config⟩) ∧
    (∀ (env : Env) (ctx : ExecuteCommittedAccounts) (d : Bytes) (r : HandlerOk),
       executeCommittedInstruction env ctx d = .ok r →
       r.effects.getLast? =
         some (.closeAccount ctx.cpi_commit_key ctx.cpi_commit.rent_refund_to)) := by
  constructor
  · intro env ctx d hc
    unfold executeCommittedInstruction
    rw [execute_committed_noop hc]
    rfl
  · intro env ctx d r h
    unfold executeCommittedInstruction at h
    cases hb : execute_committed env ctx d with
    | error e => rw [hb] at h; exact absurd h (by simp)
    | ok r0 =>
      rw [hb] at h
      simp only [Except.ok.injEq] at h
      subst h
      simp

theorem c4_graceful_noop_witness :
    ctxExp.cpi_commit.expires_at < envE.now ∧
    executeCommittedInstruction envE ctxExp [] =
      .ok ⟨[.closeAccount commitKeyA destKeyA], cfgA⟩ ∧
    ∀ r, executeCommittedInstruction envE ctxExp [] = .ok r →
      r.effects.getLast? = some (.closeAccount commitKeyA destKeyA) := by
  have hexp : ctxExp.cpi_commit.expires_at < envE.now := by decide
  exact ⟨hexp, c4_graceful_noop.1 envE ctxExp [] (Or.inl hexp),
    fun r hr => c4_graceful_noop.2 envE ctxExp [] r hr⟩

/-- C5 (amended). `executeCommittedInstruction` preserves the wallet record's
`id`, `rule_program` and `bump`, but its `last_nonce` either stays (no-op) or
is incremented by one (successful redemption). -/
theorem c5_nonce_frame_amended :
    ∀ (env : Env) (ctx : ExecuteCommittedAccounts) (d : Bytes) (r : HandlerOk),
      executeCommittedInstruction env ctx d = .ok r →
      r.smart_wallet_config.id = ctx.smart_wallet_config.id ∧
      r.smart_wallet_config.rule_program = ctx.smart_wallet_config.rule_program ∧
      r.smart_wallet_config.bump = ctx.smart_wallet_config.bump ∧
      (r.smart_wallet_config.last_nonce = ctx.smart_wallet_config.last_nonce ∨
       r.smart_wallet_config.last_nonce = ctx.smart_wallet_config.last_nonce + 1) := by
  intro env ctx d r h
  unfold executeCommittedInstruction at h
  cases hb : execute_committed env ctx d with
  | error e => rw [hb] at h; exact absurd h (by simp)
  | ok r0 =>
    rw [hb] at h
    simp only [Except.ok.injEq] at h
    subst h
    rcases execute_committed_ok_cases hb with hr0 | ⟨eff, -, hr0⟩ <;> subst hr0 <;> simp

theorem c5_nonce_frame_amended_witness :
    (⟨[.closeAccount commitKeyA destKeyA], cfgA⟩ : HandlerOk).smart_wallet_config.id =
        ctxExp.smart_wallet_config.id ∧
      (⟨[.closeAccount commitKeyA destKeyA], cfgA⟩ :
          HandlerOk).smart_wallet_config.rule_program =
        ctxExp.smart_wallet_config.rule_program ∧
      (⟨[.closeAccount commitKeyA destKeyA], cfgA⟩ : HandlerOk).smart_wallet_config.bump =
        ctxExp.smart_wallet_config.bump ∧
      ((⟨[.closeAccount commitKeyA destKeyA], cfgA⟩ :
            HandlerOk).smart_wallet_config.last_nonce =
          ctxExp.smart_wallet_config.last_nonce ∨
        (⟨[.closeAccount commitKeyA destKeyA], cfgA⟩ :
            HandlerOk).smart_wallet_config.last_nonce =
          ctxExp.smart_wallet_config.last_nonce + 1) :=
  c5_nonce_frame_amended envE ctxExp [] _ run_committed_Exp

theorem c5_counterexample :
    ctxE5.smart_wallet_config.last_nonce = 5 ∧
    executeCommittedInstruction envE ctxE5 cpiDataT = .ok resE5 ∧
    resE5.smart_wallet_config.last_nonce = 6 :=
  ⟨rfl, run_committed_E5, rfl⟩


/-- C6 (amended). Pause gating as implemented: the three direct handlers
reject with ProgramPaused right after argument validation, `commit_cpi` after
its remaining-accounts and rule-data validations; `execute_committed` never
reads the flag. -/
theorem c6_pause_gate_amended :
    (∀ (env : Env) (ctx : ExecuteTxnAccounts) (args : ExecuteTxnArgs),
       ctx.config.is_paused = true →
       argsValidateCommon args.passkey_pubkey args.signature args.client_data_json_raw
         args.authenticator_data_raw args.verify_instruction_index = .ok () →
       execute_txn_direct env ctx args = .error .ProgramPaused) ∧
    (∀ (env : Env) (ctx : ChangeRuleAccounts) (args : ChangeRuleArgs),
       ctx.config.is_paused = true →
       argsValidateCommon args.passkey_pubkey args.signature args.client_data_json_raw
         args.authenticator_data_raw args.verify_instruction_index = .ok () →
       change_rule_direct env ctx args = .error .ProgramPaused) ∧
    (∀ (env : Env) (ctx : CallRuleAccounts) (args : CallRuleArgs),
       ctx.config.is_paused = true →
       argsValidateCommon args.passkey_pubkey args.signature args.client_data_json_raw
         args.authenticator_data_raw args.verify_instruction_index = .ok () →
       call_rule_direct env ctx args = .error .ProgramPaused) ∧
    (∀ (env : Env) (ctx : CommitAccounts) (args : CommitArgs),
       ctx.config.is_paused = true →
       validate_remaining_accounts ctx.remaining_accounts = .ok () →
       validate_rule_data args.rule_data = .ok () →
       commit_cpi env ctx args = .error .ProgramPaused) ∧
    (∀ (env : Env) (ctx : ExecuteCommittedAccounts) (d : Bytes),
       executeCommittedInstruction env ctx d =
         executeCommittedInstruction env
           { ctx with config := { ctx.config with is_paused := true } } d) := by
  refine ⟨?_, ?_, ?_, ?_, ?_⟩
  · intro env ctx args hp hargs
    unfold execute_txn_direct
    rw [hargs]
    simp [andThen, hp]
  · intro env ctx args hp hargs
    unfold change_rule_direct
    rw [hargs]
    simp [andThen, hp]
  · intro env ctx args hp hargs
    unfold call_rule_direct
    rw [hargs]
    simp [andThen, hp]
  · intro env ctx args hp hrem hrd
    unfold commit_cpi
    rw [hrem, hrd]
    simp [andThen, hp]
  · intro env ctx d
    rfl

theorem c6_pause_gate_amended_witness :
    ctxTP.config.is_paused = true ∧
    execute_txn_direct envT ctxTP argsT = .error .ProgramPaused ∧
    change_rule_direct envC ctxCP argsC = .error .ProgramPaused ∧
    call_rule_direct envR ctxRP argsR = .error .ProgramPaused ∧
    commit_cpi envK ctxKP argsK = .error .ProgramPaused ∧
    executeCommittedInstruction envE ctxExp [] =
      executeCommittedInstruction envE
        { ctxExp with config := { ctxExp.config with is_paused := true } } [] := by
  refine ⟨rfl, ?_, ?_, ?_, ?_, ?_⟩
  · exact c6_pause_gate_amended.1 envT ctxTP argsT rfl (by rfl)
  · exact c6_pause_gate_amended.2.1 envC ctxCP argsC rfl (by rfl)
  · exact c6_pause_gate_amended.2.2.1 envR ctxRP argsR rfl (by rfl)
  · exact c6_pause_gate_amended.2.2.2.1 envK ctxKP argsK rfl (by rfl) (by rfl)
  · exact c6_pause_gate_amended.2.2.2.2 envE ctxExp []

theorem c6_counterexample :
    ctxE6.config.is_paused = true ∧
    executeCommittedInstruction envE ctxE6 cpiData7 = .ok resE6 ∧
    Effect.transfer walletKeyA destKeyA 7 ∈ resE6.effects :=
  ⟨rfl, run_committed_E6, by decide⟩

/-- C7. Update-policy default-program invariant. -/
theorem c7_default_transition :
    (∀ (env : Env) (ctx : ChangeRuleAccounts) (args : ChangeRuleArgs) (r : HandlerOk),
       change_rule_direct env ctx args = .ok r →
       (ctx.old_rule_program.key = ctx.config.default_rule_program ∨
        ctx.new_rule_program.key = ctx.config.default_rule_program) ∧
       ctx.smart_wallet_config.rule_program = ctx.old_rule_program.key ∧
       ctx.old_rule_program.key ∈ ctx.whitelist_rule_programs ∧
       ctx.new_rule_program.key ∈ ctx.whitelist_rule_programs ∧
       ctx.old_rule_program.key ≠ ctx.new_rule_program.key ∧
       r.smart_wallet_config.rule_program = ctx.new_rule_program.key) ∧
    (∀ (env : Env) (ctx : ChangeRuleAccounts) (args : ChangeRuleArgs) (r : HandlerOk),
       ctx.old_rule_program.key ≠ ctx.config.default_rule_program →
       ctx.new_rule_program.key ≠ ctx.config.default_rule_program →
       change_rule_direct env ctx args ≠ .ok r) ∧
    (∀ oldK newK dflt : Pubkey, oldK ≠ dflt → newK ≠ dflt →
       defaultTransitionGuard oldK newK dflt = .error .NoDefaultRuleProgram) := by
  refine ⟨?_, ?_, ?_⟩
  · intro env ctx args r h
    obtain ⟨msg, cb, rest, authEff, dEff, iEff, hcb, hp, hver, hwlo, hwln, hptr, hne,
      hdflt, h1, h2, h3, h4, h5, h6, h7, h8, h9, hr⟩ := change_rule_direct_ok_facts h
    subst hr
    exact ⟨hdflt, hptr, hwlo, hwln, hne, rfl⟩
  · intro env ctx args r hold hnew h
    obtain ⟨msg, cb, rest, authEff, dEff, iEff, hcb, hp, hver, hwlo, hwln, hptr, hne,
      hdflt, -⟩ := change_rule_direct_ok_facts h
    rcases hdflt with hd | hd
    · exact hold hd
    · exact hnew hd
  · intro oldK newK dflt h1 h2
    unfold defaultTransitionGuard
    rw [if_neg]
    rintro (h | h)
    · exact h1 h
    · exact h2 h

theorem c7_default_transition_witness :
    ((ctxC.old_rule_program.key = ctxC.config.default_rule_program ∨
      ctxC.new_rule_program.key = ctxC.config.default_rule_program) ∧
     ctxC.smart_wallet_config.rule_program = ctxC.old_rule_program.key ∧
     ctxC.old_rule_program.key ∈ ctxC.whitelist_rule_programs ∧
     ctxC.new_rule_program.key ∈ ctxC.whitelist_rule_programs ∧
     ctxC.old_rule_program.key ≠ ctxC.new_rule_program.key ∧
     resC.smart_wallet_config.rule_program = ctxC.new_rule_program.key) ∧
    change_rule_direct envC ctxC7 argsC ≠ .ok resC ∧
    defaultTransitionGuard progKeyA progKeyB destKeyA = .error .NoDefaultRuleProgram := by
  refine ⟨c7_default_transition.1 envC ctxC argsC resC run_change_rule_C, ?_, ?_⟩
  · exact c7_default_transition.2.1 envC ctxC7 argsC resC (by decide) (by decide)
  · exact c7_default_transition.2.2 progKeyA progKeyB destKeyA (by decide) (by decide)


/-- C3. The secp256r1 verification-record check as an iff. -/
theorem c3_secp_verification (ix : Instruction) (pubkey sig ad cdj : Bytes)
    (hlen : (ad ++ Sha256.sha256 cdj).length < 65536) :
    verify_secp256r1_instruction ix pubkey (ad ++ Sha256.sha256 cdj) sig = .ok () ↔
      (ix.program_id = secp256r1ID ∧ ix.accounts = [] ∧
       ix.data.length = 16 + 33 + 64 + (ad ++ Sha256.sha256 cdj).length ∧
       ix.data.getD 0 0 = 1 ∧
       u16LE (ix.data.drop 2) = 49 ∧ u16LE (ix.data.drop 4) = 65535 ∧
       u16LE (ix.data.drop 6) = 16 ∧ u16LE (ix.data.drop 8) = 65535 ∧
       u16LE (ix.data.drop 10) = 113 ∧
       u16LE (ix.data.drop 12) = (ad ++ Sha256.sha256 cdj).length ∧
       u16LE (ix.data.drop 14) = 65535 ∧
       sliceRange ix.data 16 49 = pubkey ∧ sliceRange ix.data 49 113 = sig ∧
       ix.data.drop 113 = ad ++ Sha256.sha256 cdj) :=
  verify_secp256r1_instruction_iff ix pubkey (ad ++ Sha256.sha256 cdj) sig hlen

set_option maxRecDepth 10000 in
theorem c3_secp_verification_witness :
    (adA ++ Sha256.sha256 cdjA).length < 65536 ∧
    (verify_secp256r1_instruction (secpIxFor pkA sigA msgBA) pkA
        (adA ++ Sha256.sha256 cdjA) sigA = .ok () ↔
      ((secpIxFor pkA sigA msgBA).program_id = secp256r1ID ∧
       (secpIxFor pkA sigA msgBA).accounts = [] ∧
       (secpIxFor pkA sigA msgBA).data.length =
         16 + 33 + 64 + (adA ++ Sha256.sha256 cdjA).length ∧
       (secpIxFor pkA sigA msgBA).data.getD 0 0 = 1 ∧
       u16LE ((secpIxFor pkA sigA msgBA).data.drop 2) = 49 ∧
       u16LE ((secpIxFor pkA sigA msgBA).data.drop 4) = 65535 ∧
       u16LE ((secpIxFor pkA sigA msgBA).data.drop 6) = 16 ∧
       u16LE ((secpIxFor pkA sigA msgBA).data.drop 8) = 65535 ∧
       u16LE ((secpIxFor pkA sigA msgBA).data.drop 10) = 113 ∧
       u16LE ((secpIxFor pkA sigA msgBA).data.drop 12) =
         (adA ++ Sha256.sha256 cdjA).length ∧
       u16LE ((secpIxFor pkA sigA msgBA).data.drop 14) = 65535 ∧
       sliceRange (secpIxFor pkA sigA msgBA).data 16 49 = pkA ∧
       sliceRange (secpIxFor pkA sigA msgBA).data 49 113 = sigA ∧
       (secpIxFor pkA sigA msgBA).data.drop 113 = adA ++ Sha256.sha256 cdjA)) :=
  ⟨by decide, c3_secp_verification (secpIxFor pkA sigA msgBA) pkA sigA adA cdjA
    (by decide)⟩

/-- C9. Freshness window. -/
theorem c9_timestamp_window :
    (∀ (n : Nat) (ts now : Int) (ln : Nat),
       i64Min ≤ ts → ts ≤ i64Max → i64Min ≤ now → now ≤ i64Max →
       verifyHeader n ts now ln = .ok () → -30 ≤ ts - now ∧ ts - now ≤ 30) ∧
    (∀ (n : Nat) (ts now : Int) (ln : Nat),
       i64Min ≤ ts → now ≤ i64Max → ts < now - 30 →
       verifyHeader n ts now ln = .error .TimestampTooOld) ∧
    (∀ (n : Nat) (ts now : Int) (ln : Nat),
       i64Min ≤ ts → ts ≤ i64Max → i64Min ≤ now → ts > now + 30 →
       verifyHeader n ts now ln = .error .TimestampTooNew) ∧
    (∀ (cb : Bytes) (now : Int) (ln : Nat) (m : ExecuteMessage) (rest : Bytes),
       deserializeExecuteMessage cb = some (m, rest) →
       i64Min ≤ m.current_timestamp → m.current_timestamp ≤ i64Max →
       i64Min ≤ now → now ≤ i64Max →
       executeMessageVerify cb now ln = .ok () →
       -30 ≤ m.current_timestamp - now ∧ m.current_timestamp - now ≤ 30) ∧
    (∀ (cb : Bytes) (now : Int) (ln : Nat) (m : CallRuleMessage) (rest : Bytes),
       deserializeCallRuleMessage cb = some (m, rest) →
       i64Min ≤ m.current_timestamp → m.current_timestamp ≤ i64Max →
       i64Min ≤ now → now ≤ i64Max →
       callRuleMessageVerify cb now ln = .ok () →
       -30 ≤ m.current_timestamp - now ∧ m.current_timestamp - now ≤ 30) ∧
    (∀ (cb : Bytes) (now : Int) (ln : Nat) (m : ChangeRuleMessage) (rest : Bytes),
       deserializeChangeRuleMessage cb = some (m, rest) →
       i64Min ≤ m.current_timestamp → m.current_timestamp ≤ i64Max →
       i64Min ≤ now → now ≤ i64Max →
       changeRuleMessageVerify cb now ln = .ok () →
       -30 ≤ m.current_timestamp - now ∧ m.current_timestamp - now ≤ 30) := by
  refine ⟨?_, ?_, ?_, ?_, ?_, ?_⟩
  · intro n ts now ln h1 h2 h3 h4 h
    exact verifyHeader_accept_window h1 h2 h3 h4 h
  · intro n ts now ln h1 h2 h
    exact verifyHeader_too_old h1 h2 h
  · intro n ts now ln h1 h2 h3 h
    exact verifyHeader_too_new h1 h2 h3 h
  · intro cb now ln m rest hp h1 h2 h3 h4 h
    rw [executeMessageVerify_parsed hp] at h
    exact verifyHeader_accept_window h1 h2 h3 h4 h
  · intro cb now ln m rest hp h1 h2 h3 h4 h
    rw [callRuleMessageVerify_parsed hp] at h
    exact verifyHeader_accept_window h1 h2 h3 h4 h
  · intro cb now ln m rest hp h1 h2 h3 h4 h
    rw [changeRuleMessageVerify_parsed hp] at h
    exact verifyHeader_accept_window h1 h2 h3 h4 h

set_option maxRecDepth 10000 in
theorem c9_timestamp_window_witness :
    (-30 ≤ (1005 : Int) - 1000 ∧ (1005 : Int) - 1000 ≤ 30) ∧
    verifyHeader 0 (-100) 0 0 = .error .TimestampTooOld ∧
    verifyHeader 0 100 0 0 = .error .TimestampTooNew ∧
    (-30 ≤ msgW9.current_timestamp - 1000 ∧ msgW9.current_timestamp - 1000 ≤ 30) ∧
    (-30 ≤ msgW9c.current_timestamp - 1000 ∧ msgW9c.current_timestamp - 1000 ≤ 30) ∧
    (-30 ≤ msgW9h.current_timestamp - 1000 ∧ msgW9h.current_timestamp - 1000 ≤ 30) := by
  refine ⟨?_, ?_, ?_, ?_, ?_, ?_⟩
  · exact c9_timestamp_window.1 0 1005 1000 0 (by decide) (by decide) (by decide)
      (by decide) (by rfl)
  · exact c9_timestamp_window.2.1 0 (-100) 0 0 (by decide) (by decide) (by decide)
  · exact c9_timestamp_window.2.2.1 0 100 0 0 (by decide) (by decide) (by decide)
      (by decide)
  · exact c9_timestamp_window.2.2.2.1 cbW9 1000 0 msgW9 [] (by rfl) (by decide)
      (by decide) (by decide) (by decide) (by rfl)
  · exact c9_timestamp_window.2.2.2.2.1 cbW9c 1000 0 msgW9c [] (by rfl) (by decide)
      (by decide) (by decide) (by decide) (by rfl)
  · exact c9_timestamp_window.2.2.2.2.2 cbW9h 1000 0 msgW9h [] (by rfl) (by decide)
      (by decide) (by decide) (by decide) (by rfl)

/-- C10. Prefix deserialization. -/
theorem c10_prefix_deserialization :
    (∀ (m : ExecuteMessage) (extra : Bytes), ExecuteMessageWf m →
       deserializeExecuteMessage (serializeExecuteMessage m ++ extra) =
         some (m, extra)) ∧
    (∀ (m : CallRuleMessage) (extra : Bytes), CallRuleMessageWf m →
       deserializeCallRuleMessage (serializeCallRuleMessage m ++ extra) =
         some (m, extra)) ∧
    (∀ (m : ChangeRuleMessage) (extra : Bytes), ChangeRuleMessageWf m →
       deserializeChangeRuleMessage (serializeChangeRuleMessage m ++ extra) =
         some (m, extra)) :=
  ⟨deserializeExecuteMessage_roundtrip, deserializeCallRuleMessage_roundtrip,
   deserializeChangeRuleMessage_roundtrip⟩

set_option maxRecDepth 10000 in
theorem c10_prefix_deserialization_witness :
    ExecuteMessageWf msgW10e ∧ CallRuleMessageWf msgW10c ∧
    ChangeRuleMessageWf msgW10h ∧
    deserializeExecuteMessage (serializeExecuteMessage msgW10e ++ [9, 9]) =
      some (msgW10e, [9, 9]) ∧
    deserializeCallRuleMessage (serializeCallRuleMessage msgW10c ++ [9, 9]) =
      some (msgW10c, [9, 9]) ∧
    deserializeChangeRuleMessage (serializeChangeRuleMessage msgW10h ++ [9, 9]) =
      some (msgW10h, [9, 9]) := by
  have h1 : ExecuteMessageWf msgW10e := by
    refine ⟨by decide, by decide, by decide, by decide, by decide, by decide, by decide⟩
  have h2 : CallRuleMessageWf msgW10c := by
    refine ⟨by decide, by decide, by decide, by decide, by decide, ?_⟩
    intro p hp
    cases hp
    decide
  have h3 : ChangeRuleMessageWf msgW10h := by
    refine ⟨by decide, by decide, by decide, by decide, by decide, by decide, by decide⟩
  exact ⟨h1, h2, h3, c10_prefix_deserialization.1 msgW10e [9, 9] h1,
    c10_prefix_deserialization.2.1 msgW10c [9, 9] h2,
    c10_prefix_deserialization.2.2 msgW10h [9, 9] h3⟩


end LazorKit
